import Mathlib

/-!
Verification development for the rain-lang language pipeline
(tokenizer, module loader, parser and type checker, tree-walking
interpreter, WASM lowerer).  Each section embeds the Rust data model and
the operations of one component as executable Lean definitions, then the
theorems at the end settle the behavioural claims about them.

Conventions used throughout:
- Rust `Vec` push/last/pop stacks are modelled as Lean lists with the
  most recent element first, so `Vec::last` is `List.head?`.
- functions whose Rust counterparts recurse through the heap (module
  graphs, token streams, loops in the evaluator) take an explicit fuel
  argument; `none` means the fuel ran out, so divergence of the source
  is `∀ fuel, ... = none`.
- `f32` floats are out of scope; no claim exercises them, and the float
  constructors are omitted where they would otherwise appear.
- source positions (the `start`/`end` offsets carried by tokens and
  attached to errors for diagnostics) are carried on tokens but dropped
  from errors; no claim depends on a position.
-/

namespace RainLang

/-- Module UID, a 64-bit opaque value derived from the module identifier by a
strong hash (the hash is an external collaborator); modelled as a natural
number supplied by the importer. -/
abbrev ModuleUID := Nat

/-- Operator kinds, from `common/src/types.rs` (`OperatorKind`). The Rust
variant `In` is written `inOp`. -/
inductive OperatorKind where
  | assign
  | inOp
  | range
  | comma
  | dot
  | colon
  deriving DecidableEq

/-- Math operator kinds, from `common/src/types.rs` (`MathOperatorKind`). -/
inductive MathOperatorKind where
  | plus
  | minus
  | multiply
  | divide
  | modulus
  | power
  deriving DecidableEq

/-- Boolean operator kinds, from `common/src/types.rs` (`BoolOperatorKind`). -/
inductive BoolOperatorKind where
  | equal
  | different
  | bigger
  | smaller
  | biggerEq
  | smallerEq
  deriving DecidableEq

/-- Return kinds, from `common/src/types.rs` (`ReturnKind`). -/
inductive ReturnKind where
  | return_
  | break_
  | panic_
  deriving DecidableEq

/-- Parenthesis shapes, from `common/src/types.rs` (`ParenthesisKind`). -/
inductive ParenthesisKind where
  | round
  | square
  | curly
  deriving DecidableEq

/-- Parenthesis sides, from `common/src/types.rs` (`ParenthesisState`). -/
inductive ParenthesisState where
  | open_
  | close
  deriving DecidableEq

/-- Primitive type names as they appear in `Type` tokens (`PrimitiveType` in
`common::tokens`; that file is not in the snapshot, the constructors are the
ones matched by the parser and listed in the spec). -/
inductive PrimitiveType where
  | nothing
  | int
  | float
  | bool
  | string
  deriving DecidableEq

/-- Literal payloads (`LiteralKind`). The source also has a `Float(f32)`
variant; floats are out of scope and it is omitted (no claim uses it). -/
inductive LiteralKind where
  | nothing
  | int (value : Int)
  | bool (value : Bool)
  | string (value : String)
  deriving DecidableEq

mutual

/-- Static types (`TypeKind` in `common::ast::types`; the file itself is not
in the snapshot, the constructors are the ones used by the parser, the
evaluator and the WASM lowerer and listed in the spec).  `Object` types are
omitted: the typed parser revision under `src/parser/src/parser_scope.rs`
never constructs one.  Class and Enum handles are `Arc`-shared records
compared by identity in Rust; they are carried structurally here. -/
inductive TypeKind where
  | unknown
  | nothing
  | int
  | float
  | bool
  | string
  | vector (inner : TypeKind)
  | function (ft : FunctionType)
  | classT (ct : ClassType)
  | enumT (et : EnumType)

/-- Function types `FunctionType(Vec<TypeKind>, Box<TypeKind>)`. -/
inductive FunctionType where
  | mk (params : List TypeKind) (ret : TypeKind)

/-- Class types, with named fields and methods (`ClassType`). -/
inductive ClassType where
  | mk (name : String) (fields : List (String × TypeKind))
      (methods : List (String × FunctionType))

/-- Enum types, with named variants carrying a payload type (`EnumType`). -/
inductive EnumType where
  | mk (name : String) (variants : List (String × TypeKind))

end

/-- Parameter list of a function type. -/
def FunctionType.params : FunctionType → List TypeKind
  | .mk ps _ => ps

/-- Return type of a function type. -/
def FunctionType.ret : FunctionType → TypeKind
  | .mk _ r => r

/-- Field list of a class type. -/
def ClassType.fields : ClassType → List (String × TypeKind)
  | .mk _ fs _ => fs

/-- Method list of a class type. -/
def ClassType.methods : ClassType → List (String × FunctionType)
  | .mk _ _ ms => ms

/-- Variant list of an enum type. -/
def EnumType.variants : EnumType → List (String × TypeKind)
  | .mk _ vs => vs

mutual

/-- Modelled from the spec: the type compatibility relation `is_compatible`
(its Rust implementation in `common::ast::types` is not in the snapshot).
Spec section 3: `Unknown` is compatible with anything; two identical
primitives are compatible; vectors pointwise; functions by pairwise
parameters and return; class and enum handles by identity (the identity of a
shared handle is represented here by its name). -/
def TypeKind.isCompatible : TypeKind → TypeKind → Bool
  | .unknown, _ => true
  | _, .unknown => true
  | .nothing, .nothing => true
  | .int, .int => true
  | .float, .float => true
  | .bool, .bool => true
  | .string, .string => true
  | .vector a, .vector b => a.isCompatible b
  | .function (.mk ps r), .function (.mk qs s) =>
      TypeKind.compatibleList ps qs && r.isCompatible s
  | .classT (.mk n _ _), .classT (.mk m _ _) => n == m
  | .enumT (.mk n _), .enumT (.mk m _) => n == m
  | _, _ => false

/-- Pairwise compatibility of two parameter lists (same length required). -/
def TypeKind.compatibleList : List TypeKind → List TypeKind → Bool
  | [], [] => true
  | a :: as_, b :: bs => a.isCompatible b && TypeKind.compatibleList as_ bs
  | _, _ => false

end

/-- Token kinds (`TokenKind` in `common::tokens`; the file is not in the
snapshot, the constructors are those produced by the tokenizer resolvers and
matched by the pre-parser and the parser, as listed in spec section 3). -/
inductive TokenKind where
  | importKw
  | variableKw
  | functionKw
  | classKw
  | enumKw
  | ifKw
  | elseKw
  | forKw
  | whileKw
  | returnKw
  | breakKw
  | symbol (name : String)
  | literal (value : LiteralKind)
  | operator (op : OperatorKind)
  | mathOperator (op : MathOperatorKind)
  | boolOperator (op : BoolOperatorKind)
  | parenthesis (kind : ParenthesisKind) (state : ParenthesisState)
  | indent
  | dedent
  | newLine
  | typeTok (p : PrimitiveType)
  | attributeTok (name : String)
  deriving DecidableEq

/-- Tokens carry their kind and the `[start, end)` source offsets ( `end` is
a Lean keyword, so the field is `stop`). -/
structure Token where
  kind : TokenKind
  start : Nat
  stop : Nat
  deriving DecidableEq

/-- Tokenizer error kinds, from spec section 7 (the Rust error enums live in
`common::errors`, not in the snapshot). -/
inductive TokenizerErrorKind where
  | invalidOperatorToken
  | invalidIndent
  | unterminatedString
  deriving DecidableEq

/-- Parser error kinds, from spec section 7 and the constructors used in
`src/parser/src/parser_scope.rs`. -/
inductive ParserErrorKind where
  | unexpectedToken
  | unexpectedEndOfFile
  | wrongType (expected got : TypeKind)
  | varNotFound
  | notCallable
  | notIndexable
  | fieldDoesntExist
  | invalidFieldAccess
  | invalidArgCount (expected : Nat)
  | invalidEnumVariant (name : String)
  | unexpectedError (msg : String)

/-- Load error kinds, from spec section 7 and the constructors used in
`src/parser/src/modules/module_loader.rs`.  `circularImport` appears in the
spec only: the loader in the snapshot never constructs it. -/
inductive LoadErrorKind where
  | moduleNotFound (id : String)
  | loadModuleError (id : String)
  | circularImport (id : String)
  deriving DecidableEq

/-- Runtime error kinds, from spec section 7 and the constructors used in
`src/interpreter/src/evaluate.rs` and `src/interpreter/src/lib.rs`.
`unhandledNodeKind` is a marker of this embedding only: it is returned for
the AST constructors that do not exist in the interpreter revision of the
snapshot (its `evaluate_ast` match is exhaustive without them), so no
program of that revision can reach it. -/
inductive RuntimeErrorKind where
  | varNotFound (name : String)
  | valueNotFunc
  | valueNotNumber
  | funcInvalidParamCount (expected got : Nat)
  | moduleNotFound (uid : ModuleUID)
  | cantConvertValue
  | divideByZero
  | indexOutOfBounds
  | unhandledNodeKind
  deriving DecidableEq

/-- Language errors: one family per component, as in spec section 7.  The
source attaches the offending token or offset for diagnostics; positions are
dropped here (no claim depends on one).  `runtimeMsg` models the legacy
`LangError::new_runtime(message)` constructor still used by the WASM
lowerer in `src/wasm/src/build_code.rs`. -/
inductive LangError where
  | tokenizer (kind : TokenizerErrorKind)
  | parser (kind : ParserErrorKind)
  | load (kind : LoadErrorKind)
  | runtime (kind : RuntimeErrorKind)
  | runtimeMsg (msg : String)

mutual

/-- Typed AST nodes: a kind plus the statically inferred `eval_type`
(`ASTNode` in `common/src/ast/mod.rs`). -/
inductive ASTNode where
  | mk (kind : NodeKind) (evalType : TypeKind)

/-- AST node kinds (`NodeKind` in `common/src/ast/mod.rs`). -/
inductive NodeKind where
  | variableDecl (name : String) (value : ASTNode)
  | variableRef (module : ModuleUID) (name : String)
  | variableAsgn (name : String) (value : ASTNode)
  | functionInvok (variable_ : ASTNode) (parameters : List ASTNode)
  | literal (value : LiteralKind)
  | mathOperation (operation : MathOperatorKind) (left right : ASTNode)
  | boolOperation (operation : BoolOperatorKind) (left right : ASTNode)
  | returnStatement (value : Option ASTNode) (kind : ReturnKind)
  | ifStatement (condition : ASTNode) (body : List ASTNode) (elseBranch : ElseType)
  | forStatement (left right : ASTNode) (body : List ASTNode) (iterName : String)
  | whileStatement (condition : ASTNode) (body : List ASTNode)
  | fieldAccess (variable_ : ASTNode) (classType : ClassType) (fieldName : String)
  | fieldAsgn (variable_ : ASTNode) (classType : ClassType) (fieldName : String)
      (value : ASTNode)
  | vectorLiteral (values : List ASTNode)
  | objectLiteral (values : List (String × ASTNode))
  | functionLiteral (value : FunctionVal)
  | valueFieldAccess (variable_ : ASTNode) (value : ASTNode)
  | valueFieldAssign (variable_ : ASTNode) (offset : ASTNode) (asgnValue : ASTNode)
  | constructClass (parameters : List ASTNode) (classType : ClassType)
  | constructEnumVariant (value : ASTNode) (variantType : TypeKind)
      (variantId : Nat) (enumType : EnumType)

/-- Else chains of an if statement (`ElseType` in `common/src/ast/mod.rs`). -/
inductive ElseType where
  | none
  | elseIf (condition : ASTNode) (body : List ASTNode) (elseBranch : ElseType)
  | else_ (body : List ASTNode)

/-- Function bodies as stored in function literals and runtime function
values (`Function` in `common::ast::types`: a body and the parameter
names). -/
inductive FunctionVal where
  | mk (body : List ASTNode) (parameters : List String)

end

/-- Kind component of a node. -/
def ASTNode.kind : ASTNode → NodeKind
  | .mk k _ => k

/-- Statically inferred type of a node. -/
def ASTNode.evalType : ASTNode → TypeKind
  | .mk _ t => t

/-- Body of a function value. -/
def FunctionVal.body : FunctionVal → List ASTNode
  | .mk b _ => b

/-- Parameter names of a function value. -/
def FunctionVal.parameters : FunctionVal → List String
  | .mk _ ps => ps

/-! ## Tokenizer: indentation handling

From `Tokenizer::tokenize_char`, the `AddResult::ChangeIndentation` arm in
`src/tokenizer/src/tokenizer.rs` (lines 80-114).  The indentation stack
`indentation_stack: Vec<u32>` is modelled with the most recent level first,
so `Vec::last` is the list head and `Vec::push`/`Vec::pop` act on the head.
The whitespace resolver that decides when `ChangeIndentation` fires is not
in the snapshot; these functions describe exactly what the tokenizer does
with an emitted `ChangeIndentation(new_indent, _)` for a given stack. -/

/-- Dedent emission loop of `tokenize_char`: after the initial pop, the Rust
code loops pushing one `Dedent` token, then inspects the new stack top: if
it equals the new column it stops, otherwise it pops again; an empty stack
reports `InvalidIndent`.  `emitted` accumulates the tokens pushed so far. -/
def dedentLoop : List Nat → Nat → List TokenKind →
    Except TokenizerErrorKind (List TokenKind × List Nat)
  | stack, newIndent, emitted =>
    let emitted := emitted ++ [TokenKind.dedent]
    match stack with
    | [] => .error .invalidIndent
    | top :: rest =>
      if top = newIndent then .ok (emitted, top :: rest)
      else dedentLoop rest newIndent emitted

/-- Indentation-change handling of `tokenize_char`: with `top` the stack
top, a smaller new column pops once and enters `dedentLoop`; otherwise (the
`else` branch of the source, covering both a larger and an equal column) one
`Indent` token is emitted and the new column is pushed.  The Rust code calls
`last().unwrap()` and would panic on an empty stack; the tokenizer starts
from `[0]` and stops at the first error, so the stack is never empty there,
and the empty case is mapped to the same `InvalidIndent` error. -/
def handleIndentation (stack : List Nat) (newIndent : Nat) :
    Except TokenizerErrorKind (List TokenKind × List Nat) :=
  match stack with
  | [] => .error .invalidIndent
  | top :: rest =>
    if newIndent < top then dedentLoop rest newIndent []
    else .ok ([TokenKind.indent], newIndent :: top :: rest)

/-! ## Runtime values and scopes

The interpreter crate's `lang_value.rs`, `scope.rs` and `module_scope.rs`
are not in the snapshot (only `evaluate.rs`, `lib.rs` and `errors.rs` are);
the value type and the scope operations below are modelled from the spec
(sections 4.5 and 3) and from how `evaluate.rs` uses them. -/

/-- Modelled from the spec: runtime values (spec section 4.5), the missing
`interpreter::lang_value::LangValue`.  `Float(f32)` is omitted (floats out
of scope).  `Object` values are shared mutable maps in Rust; they are
carried structurally here, which no claim distinguishes.  An `ExtFunction`
holds a host handler; it is modelled as an index into the host table the
evaluator receives, so that values keep a first-order representation. -/
inductive LangValue where
  | nothing
  | bool (b : Bool)
  | int (i : Int)
  | string (s : String)
  | vector (values : List LangValue)
  | object (fields : List (String × LangValue))
  | function (f : FunctionVal)
  | extFunction (id : Nat)

/-- Modelled from the spec: `LangValue::as_i32`, used by the `for` loop
bounds; spec section 4.5 requires `min`/`max` to be `Int`, so only an `Int`
converts. -/
def LangValue.asI32 : LangValue → Option Int
  | .int i => some i
  | _ => none

/-- Modelled from the spec: truthiness (spec section 4.5): `false`, `0`,
empty string, empty vector and `Nothing` are falsy; everything else is
truthy (`0.0` concerns the omitted floats). -/
def LangValue.truthy : LangValue → Bool
  | .nothing => false
  | .bool b => b
  | .int i => !(i == 0)
  | .string s => !s.isEmpty
  | .vector vs => !vs.isEmpty
  | _ => true

/-- Modelled from the spec: numeric addition (`LangValue::sum`); `Int op Int
= Int` (spec section 4.4), the float cases are out of scope and every other
combination is modelled as `Nothing` (the Rust signature returns a plain
`LangValue`, so no combination can error). -/
def LangValue.sum : LangValue → LangValue → LangValue
  | .int a, .int b => .int (a + b)
  | _, _ => .nothing

/-- Modelled from the spec: numeric subtraction (`LangValue::minus`). -/
def LangValue.minus : LangValue → LangValue → LangValue
  | .int a, .int b => .int (a - b)
  | _, _ => .nothing

/-- Modelled from the spec: numeric multiplication (`LangValue::multiply`). -/
def LangValue.multiply : LangValue → LangValue → LangValue
  | .int a, .int b => .int (a * b)
  | _, _ => .nothing

/-- Modelled from the spec: numeric division (`LangValue::divide`); integer
division truncates in Rust, `Int.tdiv` here.  No claim exercises division. -/
def LangValue.divide : LangValue → LangValue → LangValue
  | .int a, .int b => .int (Int.tdiv a b)
  | _, _ => .nothing

/-- Modelled from the spec: modulus following truncated division
(`LangValue::modulus`, spec section 4.5). -/
def LangValue.modulus : LangValue → LangValue → LangValue
  | .int a, .int b => .int (Int.tmod a b)
  | _, _ => .nothing

/-- Modelled from the spec: integer-exponent power (`LangValue::power`);
a negative exponent is modelled as 0 (`i32::pow` takes a `u32`). -/
def LangValue.power : LangValue → LangValue → LangValue
  | .int a, .int b => .int (a ^ b.toNat)
  | _, _ => .nothing

/-- Modelled from the spec: equality for the comparison operators;
structural for primitives (spec section 4.5).  Reference equality of
functions and objects is not modelled (no claim uses it): those compare
unequal here. -/
def LangValue.equalsVal : LangValue → LangValue → Bool
  | .nothing, .nothing => true
  | .bool a, .bool b => a == b
  | .int a, .int b => a == b
  | .string a, .string b => a == b
  | _, _ => false

/-- Modelled from the spec: the strict greater-than comparison on
numerics. -/
def LangValue.biggerVal : LangValue → LangValue → Bool
  | .int a, .int b => b < a
  | _, _ => false

/-- Modelled from the spec: the strict less-than comparison on numerics. -/
def LangValue.smallerVal : LangValue → LangValue → Bool
  | .int a, .int b => a < b
  | _, _ => false

/-- Literal injection into a runtime value (`value.clone().into()` in the
`Literal` arm of `evaluate_ast`). -/
def literalToValue : LiteralKind → LangValue
  | .nothing => .nothing
  | .int i => .int i
  | .bool b => .bool b
  | .string s => .string s

/-- Insert-or-replace into one scope frame (Rust `HashMap::insert`). -/
def frameUpsert (name : String) (v : LangValue) :
    List (String × LangValue) → List (String × LangValue)
  | [] => [(name, v)]
  | (m, w) :: rest =>
    if m == name then (name, v) :: rest else (m, w) :: frameUpsert name v rest

/-- Modelled from the spec: an evaluator scope chain (the missing
`interpreter::scope::Scope`): a name-to-value frame per scope with a parent
link, the head frame innermost and the last frame the module scope.  The
Rust scopes are shared mutable (`Arc`/`RefCell`); evaluation here threads
the whole chain instead, which is equivalent for the single-threaded
evaluator. -/
structure EvalScope where
  frames : List (List (String × LangValue))

/-- Modelled from the spec: `Scope::declare_var` inserts into the current
(innermost) frame. -/
def EvalScope.declareVar (s : EvalScope) (name : String) (v : LangValue) :
    EvalScope :=
  match s.frames with
  | [] => ⟨[[(name, v)]]⟩
  | f :: fs => ⟨frameUpsert name v f :: fs⟩

/-- Modelled from the spec: lexical lookup, nearest binding first
(`Scope::get_var` walking the parent chain). -/
def EvalScope.getVarLocal (s : EvalScope) (name : String) : Option LangValue :=
  go s.frames
where
  /-- Walk the frames outward and return the first hit. -/
  go : List (List (String × LangValue)) → Option LangValue
    | [] => none
    | f :: fs =>
      match f.lookup name with
      | some v => some v
      | none => go fs

/-- Modelled from the spec: `Scope::set_var` rebinds the nearest existing
binding; when the name is bound nowhere, it is created in the top (module)
scope, the outermost frame (spec section 4.5 `VariableAsgn`). -/
def EvalScope.setVar (s : EvalScope) (name : String) (v : LangValue) :
    EvalScope :=
  if (s.getVarLocal name).isSome then ⟨go s.frames⟩
  else
    match s.frames.reverse with
    | [] => ⟨[[(name, v)]]⟩
    | top :: rest => ⟨(frameUpsert name v top :: rest).reverse⟩
where
  /-- Rebind in the first frame that holds the name. -/
  go : List (List (String × LangValue)) → List (List (String × LangValue))
    | [] => []
    | f :: fs =>
      if (f.lookup name).isSome then frameUpsert name v f :: fs
      else f :: go fs

/-- Push a fresh child frame (`Scope::new_child`). -/
def EvalScope.pushFrame (s : EvalScope) : EvalScope :=
  ⟨[] :: s.frames⟩

/-- Drop the innermost frame when a Rust child scope goes out of scope. -/
def EvalScope.popFrame (s : EvalScope) : EvalScope :=
  ⟨s.frames.tail⟩

/-- Host-supplied evaluation context: exports of other modules (consulted by
`Scope::get_var(module, name)` after the lexical chain misses) and the
handlers behind `ExtFunction` values. -/
structure EvalEnv where
  moduleExports : ModuleUID → String → Option LangValue
  extFns : Nat → List LangValue → Except LangError LangValue

/-- Modelled from the spec: `Scope::get_var(module, name)` as used by the
`VariableRef` arm: the lexical scopes first, then the named module's
exports (spec section 4.5). -/
def EvalScope.getVar (s : EvalScope) (env : EvalEnv) (module : ModuleUID)
    (name : String) : Option LangValue :=
  match s.getVarLocal name with
  | some v => some v
  | none => env.moduleExports module name

/-- Three-valued evaluator outcome `EvalResult` from
`src/interpreter/src/evaluate.rs`: `Ok`, `Ret` (carrying
`Return`/`Break`/`Panic`) or `Err`. -/
inductive EvalResult where
  | ok (value : LangValue)
  | ret (value : LangValue) (kind : ReturnKind)
  | err (e : LangError)

/-- Outcome of evaluating a statement list: every statement returned `Ok`
(the scope after the last one), or the first `Ret` or `Err` stopped the
walk.  This is the shape of the per-statement `match` loops in
`evaluate_ast` and `invoke_function`. -/
inductive BodyOut where
  | finished (s : EvalScope)
  | retStop (value : LangValue) (kind : ReturnKind) (s : EvalScope)
  | errStop (e : LangError) (s : EvalScope)

/-- Outcome of evaluating an expression list (function arguments, vector or
object elements): all values collected, or a `Ret`/`Err` propagated by the
`?` operator. -/
inductive ListOut where
  | collected (values : List LangValue)
  | stopped (r : EvalResult)

/-- Modelled from the spec: reading a field (`LangValue::get_field`, used by
the `FieldAccess` arm); missing fields yield `Nothing` (spec section 4.5). -/
def LangValue.getField : LangValue → String → LangValue
  | .object fields, name =>
    match fields.lookup name with
    | some v => v
    | none => .nothing
  | _, _ => .nothing

/-- Modelled from the spec: vector indexing (`LangValue::get_value_field`,
used by the `ValueFieldAccess` arm); the typed evaluator wraps the result in
`Ok` directly, so a miss is modelled as `Nothing`. -/
def LangValue.getValueField : LangValue → LangValue → LangValue
  | .vector vs, .int i =>
    match vs.get? i.toNat with
    | some v => v
    | none => .nothing
  | _, _ => .nothing

/-- Parameter binding loop of `invoke_function`: declare each parameter name
to the matching argument value in the fresh function scope. -/
def declareParams : List String → List LangValue → EvalScope → EvalScope
  | [], _, s => s
  | _, [], s => s
  | p :: ps, v :: vs, s => declareParams ps vs (s.declareVar p v)

/-- Keys of an object literal zipped back with the evaluated values. -/
def objectFieldNames (values : List (String × ASTNode)) (vals : List LangValue) :
    List (String × LangValue) :=
  List.zip (values.map Prod.fst) vals

mutual

/-- Embedding of `Scope::evaluate_ast` from
`src/interpreter/src/evaluate.rs`, with fuel (`none` = fuel exhausted).
The interpreter revision in the snapshot matches `IfStatement` without an
else branch and has no `FieldAsgn`, `ValueFieldAssign`, `ConstructClass` or
`ConstructEnumVariant` arms: the else branch is ignored and those four
constructors return the unreachable `unhandledNodeKind` marker. -/
def evalAst : Nat → EvalEnv → EvalScope → ASTNode → Option (EvalResult × EvalScope)
  | 0, _, _, _ => none
  | n + 1, env, s, .mk k _ =>
    match k with
    | .variableDecl name value =>
      match evalAst n env s value with
      | none => none
      | some (.ok v, s1) => some (.ok .nothing, s1.declareVar name v)
      | some (.ret v rk, s1) => some (.ret v rk, s1)
      | some (.err e, s1) => some (.err e, s1)
    | .variableRef module name =>
      match s.getVar env module name with
      | some v => some (.ok v, s)
      | none => some (.err (.runtime (.varNotFound name)), s)
    | .variableAsgn name value =>
      match evalAst n env s value with
      | none => none
      | some (.ok v, s1) => some (.ok .nothing, s1.setVar name v)
      | some (.ret v rk, s1) => some (.ret v rk, s1)
      | some (.err e, s1) => some (.err e, s1)
    | .functionInvok callee params =>
      match evalAst n env s callee with
      | none => none
      | some (.ok f, s1) =>
        match evalList n env s1 params with
        | none => none
        | some (.collected vals, s2) => invokeFunction n env s2 f vals
        | some (.stopped r, s2) => some (r, s2)
      | some (.ret v rk, s1) => some (.ret v rk, s1)
      | some (.err e, s1) => some (.err e, s1)
    | .literal v => some (.ok (literalToValue v), s)
    | .mathOperation op l r =>
      match evalAst n env s l with
      | none => none
      | some (.ok lv, s1) =>
        match evalAst n env s1 r with
        | none => none
        | some (.ok rv, s2) =>
          let value :=
            match op with
            | .plus => lv.sum rv
            | .minus => lv.minus rv
            | .multiply => lv.multiply rv
            | .divide => lv.divide rv
            | .modulus => lv.modulus rv
            | .power => lv.power rv
          some (.ok value, s2)
        | some (.ret v rk, s2) => some (.ret v rk, s2)
        | some (.err e, s2) => some (.err e, s2)
      | some (.ret v rk, s1) => some (.ret v rk, s1)
      | some (.err e, s1) => some (.err e, s1)
    | .boolOperation op l r =>
      match evalAst n env s l with
      | none => none
      | some (.ok lv, s1) =>
        match evalAst n env s1 r with
        | none => none
        | some (.ok rv, s2) =>
          let value :=
            match op with
            | .equal => lv.equalsVal rv
            | .different => !(lv.equalsVal rv)
            | .bigger => lv.biggerVal rv
            | .smaller => lv.smallerVal rv
            | .biggerEq => !(lv.smallerVal rv)
            | .smallerEq => !(lv.biggerVal rv)
          some (.ok (.bool value), s2)
        | some (.ret v rk, s2) => some (.ret v rk, s2)
        | some (.err e, s2) => some (.err e, s2)
      | some (.ret v rk, s1) => some (.ret v rk, s1)
      | some (.err e, s1) => some (.err e, s1)
    | .returnStatement (some value) rk =>
      match evalAst n env s value with
      | none => none
      | some (.ok v, s1) => some (.ret v rk, s1)
      | some (.ret v rk1, s1) => some (.ret v rk1, s1)
      | some (.err e, s1) => some (.err e, s1)
    | .returnStatement none rk => some (.ret .nothing rk, s)
    | .ifStatement cond body _else =>
      match evalAst n env s cond with
      | none => none
      | some (.ok c, s1) =>
        if c.truthy then
          match evalBodySeq n env s1.pushFrame body with
          | none => none
          | some (.finished s2) => some (.ok .nothing, s2.popFrame)
          | some (.retStop v rk s2) => some (.ret v rk, s2.popFrame)
          | some (.errStop e s2) => some (.err e, s2.popFrame)
        else some (.ok .nothing, s1)
      | some (.ret v rk, s1) => some (.ret v rk, s1)
      | some (.err e, s1) => some (.err e, s1)
    | .forStatement left right body iterName =>
      match evalAst n env s left with
      | none => none
      | some (.ok lv, s1) =>
        match evalAst n env s1 right with
        | none => none
        | some (.ok rv, s2) =>
          match lv.asI32 with
          | none => some (.err (.runtime .valueNotNumber), s2)
          | some mn =>
            match rv.asI32 with
            | none => some (.err (.runtime .valueNotNumber), s2)
            | some mx => forLoop n env s2 mn mx body iterName
        | some (.ret v rk, s2) => some (.ret v rk, s2)
        | some (.err e, s2) => some (.err e, s2)
      | some (.ret v rk, s1) => some (.ret v rk, s1)
      | some (.err e, s1) => some (.err e, s1)
    | .whileStatement cond body => whileLoop n env s cond body
    | .fieldAccess variable_ _ct fieldName =>
      match evalAst n env s variable_ with
      | none => none
      | some (.ok v, s1) => some (.ok (v.getField fieldName), s1)
      | some (.ret v rk, s1) => some (.ret v rk, s1)
      | some (.err e, s1) => some (.err e, s1)
    | .vectorLiteral values =>
      match evalList n env s values with
      | none => none
      | some (.collected vals, s1) => some (.ok (.vector vals), s1)
      | some (.stopped r, s1) => some (r, s1)
    | .objectLiteral values =>
      match evalObjectList n env s values with
      | none => none
      | some (.collected vals, s1) =>
        some (.ok (.object (objectFieldNames values vals)), s1)
      | some (.stopped r, s1) => some (r, s1)
    | .functionLiteral f => some (.ok (.function f), s)
    | .valueFieldAccess variable_ value =>
      match evalAst n env s variable_ with
      | none => none
      | some (.ok v, s1) =>
        match evalAst n env s1 value with
        | none => none
        | some (.ok idx, s2) => some (.ok (v.getValueField idx), s2)
        | some (.ret v1 rk, s2) => some (.ret v1 rk, s2)
        | some (.err e, s2) => some (.err e, s2)
      | some (.ret v rk, s1) => some (.ret v rk, s1)
      | some (.err e, s1) => some (.err e, s1)
    | .fieldAsgn _ _ _ _ => some (.err (.runtime .unhandledNodeKind), s)
    | .valueFieldAssign _ _ _ => some (.err (.runtime .unhandledNodeKind), s)
    | .constructClass _ _ => some (.err (.runtime .unhandledNodeKind), s)
    | .constructEnumVariant _ _ _ _ => some (.err (.runtime .unhandledNodeKind), s)

/-- Left-to-right evaluation of an expression list (the `for param in
parameters` loops collecting `param_values`); a `Ret` or an `Err` from any
element stops the walk, as the `?` operator does. -/
def evalList : Nat → EvalEnv → EvalScope → List ASTNode → Option (ListOut × EvalScope)
  | 0, _, _, _ => none
  | _ + 1, _, s, [] => some (.collected [], s)
  | n + 1, env, s, p :: ps =>
    match evalAst n env s p with
    | none => none
    | some (.ok v, s1) =>
      match evalList n env s1 ps with
      | none => none
      | some (.collected vs, s2) => some (.collected (v :: vs), s2)
      | some (.stopped r, s2) => some (.stopped r, s2)
    | some (.ret v rk, s1) => some (.stopped (.ret v rk), s1)
    | some (.err e, s1) => some (.stopped (.err e), s1)

/-- Left-to-right evaluation of the value expressions of an object literal
(the keys pass through unchanged). -/
def evalObjectList : Nat → EvalEnv → EvalScope → List (String × ASTNode) →
    Option (ListOut × EvalScope)
  | 0, _, _, _ => none
  | _ + 1, _, s, [] => some (.collected [], s)
  | n + 1, env, s, (_, p) :: ps =>
    match evalAst n env s p with
    | none => none
    | some (.ok v, s1) =>
      match evalObjectList n env s1 ps with
      | none => none
      | some (.collected vs, s2) => some (.collected (v :: vs), s2)
      | some (.stopped r, s2) => some (.stopped r, s2)
    | some (.ret v rk, s1) => some (.stopped (.ret v rk), s1)
    | some (.err e, s1) => some (.stopped (.err e), s1)

/-- Statement-list walk shared by bodies: stop at the first `Ret` or `Err`
(the `for child in body` loops with their per-statement `match`). -/
def evalBodySeq : Nat → EvalEnv → EvalScope → List ASTNode → Option BodyOut
  | 0, _, _, _ => none
  | _ + 1, _, s, [] => some (.finished s)
  | n + 1, env, s, c :: cs =>
    match evalAst n env s c with
    | none => none
    | some (.ok _, s1) => evalBodySeq n env s1 cs
    | some (.ret v rk, s1) => some (.retStop v rk s1)
    | some (.err e, s1) => some (.errStop e s1)

/-- Iteration of the `ForStatement` arm: `for i in min..max`, each iteration
in a fresh child scope binding the iteration name to `i`; a `Break` return
exits the loop with its value, any other `Ret` and any `Err` propagate. -/
def forLoop : Nat → EvalEnv → EvalScope → Int → Int → List ASTNode → String →
    Option (EvalResult × EvalScope)
  | n, env, s, mn, mx, body, iterName =>
    if mn < mx then
      match n with
      | 0 => none
      | k + 1 =>
        let s1 := (s.pushFrame).declareVar iterName (.int mn)
        match evalBodySeq k env s1 body with
        | none => none
        | some (.finished s2) => forLoop k env s2.popFrame (mn + 1) mx body iterName
        | some (.retStop v .break_ s2) => some (.ok v, s2.popFrame)
        | some (.retStop v rk s2) => some (.ret v rk, s2.popFrame)
        | some (.errStop e s2) => some (.err e, s2.popFrame)
    else some (.ok .nothing, s)

/-- Iteration of the `WhileStatement` arm: evaluate the condition, then run
the body in a fresh child scope while it is truthy; `Break` exits with its
value. -/
def whileLoop : Nat → EvalEnv → EvalScope → ASTNode → List ASTNode →
    Option (EvalResult × EvalScope)
  | 0, _, _, _, _ => none
  | n + 1, env, s, cond, body =>
    match evalAst n env s cond with
    | none => none
    | some (.ok c, s1) =>
      if c.truthy then
        match evalBodySeq n env s1.pushFrame body with
        | none => none
        | some (.finished s2) => whileLoop n env s2.popFrame cond body
        | some (.retStop v .break_ s2) => some (.ok v, s2.popFrame)
        | some (.retStop v rk s2) => some (.ret v rk, s2.popFrame)
        | some (.errStop e s2) => some (.err e, s2.popFrame)
      else some (.ok .nothing, s1)
    | some (.ret v rk, s1) => some (.ret v rk, s1)
    | some (.err e, s1) => some (.err e, s1)

/-- Embedding of `Scope::invoke_function` from
`src/interpreter/src/evaluate.rs`: dispatch on the callee value.  A
`Function` first checks the parameter count (`FuncInvalidParamCount` with
the expected and the actual count, before anything of the body runs), then
binds the parameters in a fresh child scope and walks the body, a `Return`
stopping with its value; an `ExtFunction` calls the host handler; any other
value is `ValueNotFunc`. -/
def invokeFunction : Nat → EvalEnv → EvalScope → LangValue → List LangValue →
    Option (EvalResult × EvalScope)
  | n, env, s, .function f, args =>
    if f.parameters.length ≠ args.length then
      some (.err (.runtime (.funcInvalidParamCount f.parameters.length args.length)), s)
    else
      match n with
      | 0 => none
      | k + 1 =>
        let s1 := declareParams f.parameters args s.pushFrame
        match evalBodySeq k env s1 f.body with
        | none => none
        | some (.finished s2) => some (.ok .nothing, s2.popFrame)
        | some (.retStop v .return_ s2) => some (.ok v, s2.popFrame)
        | some (.retStop v rk s2) => some (.ret v rk, s2.popFrame)
        | some (.errStop e s2) => some (.err e, s2.popFrame)
  | _, env, s, .extFunction id, args =>
    match env.extFns id args with
    | .ok v => some (.ok v, s)
    | .error e => some (.err e, s)
  | _, _, s, _, _ => some (.err (.runtime .valueNotFunc), s)

end

/-! ## Interpreter engine

From `src/interpreter/src/lib.rs`: the module store, `get_function` and
`InterpreterFunction::call` (the zero-argument instance of
`InternalFunction`). -/

/-- An engine module: the module-level scope holding the module's functions
and evaluated globals (`InterpreterModule` wrapping the missing
`ModuleScope`, modelled as a name-to-value map). -/
structure InterpreterModule where
  scope : List (String × LangValue)

/-- Module store of the engine: UID-keyed engine modules
(`ModuleStore<InterpreterModule>`, the store crate is not in the
snapshot and a UID-keyed association list stands in for it). -/
abbrev ModuleStore := List (ModuleUID × InterpreterModule)

/-- The callable handed out by `get_function`: a reference to the store plus
the module UID and the function name, nothing else
(`InterpreterFunction<Args, R>`). -/
structure InterpreterFunction where
  moduleStore : ModuleStore
  module : ModuleUID
  name : String

/-- Embedding of `InterpreterEngine::get_function` (lines 192-206 of
`src/interpreter/src/lib.rs`): it builds the callable from the store
reference, the UID and the name unconditionally — no lookup happens here. -/
def getFunction (store : ModuleStore) (uid : ModuleUID) (name : String) :
    Option InterpreterFunction :=
  some { moduleStore := store, module := uid, name := name }

/-- Embedding of `InterpreterFunction::call` for the zero-argument instance
(lines 148-190 of `src/interpreter/src/lib.rs`).  Only now are the module
(`ModuleNotFound`), the variable (`VarNotFound`) and its function-ness
(`ValueNotFunc`) checked; then the function is invoked in a fresh child of
the module scope and the result converted to the host type through the
external-value conversion (`into`) and `R::concretize`, a `None` from
either being `CantConvertValue`. -/
def interpCall {A R : Type} (f : InterpreterFunction) (env : EvalEnv)
    (intoExternal : LangValue → Option A) (concretize : A → Option R)
    (fuel : Nat) : Option (Except LangError R) :=
  match f.moduleStore.lookup f.module with
  | none => some (.error (.runtime (.moduleNotFound f.module)))
  | some m =>
    match m.scope.lookup f.name with
    | none => some (.error (.runtime (.varNotFound f.name)))
    | some (.function fn) =>
      match invokeFunction fuel env ⟨[[], m.scope]⟩ (.function fn) [] with
      | none => none
      | some (.ok value, _) =>
        match intoExternal value with
        | none => some (.error (.runtime .cantConvertValue))
        | some a =>
          match concretize a with
          | none => some (.error (.runtime .cantConvertValue))
          | some r => some (.ok r)
      | some (.ret value _, _) =>
        match intoExternal value with
        | none => some (.error (.runtime .cantConvertValue))
        | some a =>
          match concretize a with
          | none => some (.error (.runtime .cantConvertValue))
          | some r => some (.ok r)
      | some (.err e, _) => some (.error e)
    | some _ => some (.error (.runtime .valueNotFunc))

/-! ## Module loader

From `src/parser/src/modules/module_loader.rs`.  The tokenizer, the
pre-parser (`ModulePreParser::prepare_module`) and the module parser
(`ModuleParser::parse_module`) are the collaborating components the loader
drives; they enter the embedding as the `LoaderPipeline` record of
functions, and the host importer as `ModuleImporter`.  The loader itself —
cache checks, cache inserts, the recursive import pre-parse and the
dependency parse loop — is translated directly. -/

/-- Pre-parsed module skeleton as far as the loader consumes it: its import
identifiers (`ParsableModule`; the body snapshots play no role in the
loader's control flow). -/
structure LoaderParsableModule where
  imports : List String

/-- A parsed module as the loader caches it: spec section 3 plus the
`parsable_module` field the loader reads back for cached imports. -/
structure LoaderModule where
  uid : ModuleUID
  identifier : String
  imports : List ModuleUID
  parsableModule : LoaderParsableModule

/-- Host-supplied module importer: `get_unique_identifier` and
`load_module` (spec section 6); `None` triggers the corresponding loader
errors. -/
structure ModuleImporter where
  getUniqueIdentifier : String → Option ModuleUID
  loadModule : String → Option String

/-- The collaborating pipeline stages the loader calls into:
`Tokenizer::tokenize`, `ModulePreParser::prepare_module` (taking the tokens,
the identifier and the UID) and `ModuleParser::parse_module` (taking the
pre-parsed modules gathered by `create_parser` and the UID to parse). -/
structure LoaderPipeline where
  tokenize : String → Except LangError (List Token)
  prepareModule : List Token → String → ModuleUID → Except LangError LoaderParsableModule
  parseModule : List LoaderParsableModule → ModuleUID → Except LangError LoaderModule

/-- The loader's module cache `modules: HashMap<ModuleUID, Arc<Module>>`,
as a UID-keyed association list. -/
abbrev LoaderCache := List (ModuleUID × LoaderModule)

/-- Cache insertion (`HashMap::insert`): replace any entry under the key. -/
def cacheInsert (cache : LoaderCache) (uid : ModuleUID) (m : LoaderModule) :
    LoaderCache :=
  (uid, m) :: cache.filter (fun e => e.1 != uid)

/-- Cache lookup (`HashMap::get`). -/
def cacheLookup (cache : LoaderCache) (uid : ModuleUID) : Option LoaderModule :=
  cache.lookup uid

/-- Number of cache entries stored under a UID. -/
def cacheCountKey (cache : LoaderCache) (uid : ModuleUID) : Nat :=
  (cache.filter (fun e => e.1 == uid)).length

mutual

/-- Embedding of `ModuleLoader::load_imports` (lines 133-168 of
`src/parser/src/modules/module_loader.rs`): walk the pre-parsed module's
imports, accumulating pre-parsed modules into `vec`.  The cache is read but
never written here, and nothing marks a module as in flight: a
cyclic import graph re-enters the same module for ever (`none` at every
fuel). -/
def loadImports (pl : LoaderPipeline) (imp : ModuleImporter) :
    Nat → LoaderCache → List LoaderParsableModule → LoaderParsableModule →
    Option (Except LangError (List LoaderParsableModule))
  | 0, _, _, _ => none
  | n + 1, cache, vec, module => loadImportsList pl imp n cache vec module.imports

/-- The `for import in &module.imports` loop of `load_imports`: a
cached import contributes its stored pre-parsed module; an uncached one is loaded,
tokenized, pre-parsed and recursed into before being appended. -/
def loadImportsList (pl : LoaderPipeline) (imp : ModuleImporter) :
    Nat → LoaderCache → List LoaderParsableModule → List String →
    Option (Except LangError (List LoaderParsableModule))
  | 0, _, _, _ => none
  | _ + 1, _, vec, [] => some (.ok vec)
  | n + 1, cache, vec, importId :: rest =>
    match imp.getUniqueIdentifier importId with
    | none => some (.error (.load (.moduleNotFound importId)))
    | some uid =>
      match cacheLookup cache uid with
      | some m => loadImportsList pl imp n cache (vec ++ [m.parsableModule]) rest
      | none =>
        match imp.loadModule importId with
        | none => some (.error (.load (.loadModuleError importId)))
        | some source =>
          match pl.tokenize source with
          | .error e => some (.error e)
          | .ok tokens =>
            match pl.prepareModule tokens importId uid with
            | .error e => some (.error e)
            | .ok pm =>
              match loadImports pl imp n cache vec pm with
              | none => none
              | some (.error e) => some (.error e)
              | some (.ok vec2) => loadImportsList pl imp n cache (vec2 ++ [pm]) rest

end

/-- Embedding of `ModuleLoader::create_parser`: seed the vector with the
module itself, then gather its transitive imports. -/
def createParser (pl : LoaderPipeline) (imp : ModuleImporter) (fuel : Nat)
    (cache : LoaderCache) (pm : LoaderParsableModule) :
    Option (Except LangError (List LoaderParsableModule)) :=
  loadImports pl imp fuel cache [pm] pm

/-- The `for import_uid in &module.imports` loop of
`load_module_with_source`: parse each dependency, collect it and insert it
into the cache. -/
def depsLoop (pl : LoaderPipeline) (modules : List LoaderParsableModule) :
    List ModuleUID → LoaderCache → List LoaderModule →
    Except LangError (List LoaderModule × LoaderCache)
  | [], cache, deps => .ok (deps, cache)
  | u :: rest, cache, deps =>
    match pl.parseModule modules u with
    | .error e => .error e
    | .ok m => depsLoop pl modules rest (cacheInsert cache u m) (deps ++ [m])

/-- Embedding of `ModuleLoader::load_module_with_source` (lines 36-76):
tokenize, pre-parse, gather the transitive imports, parse the main module,
insert it, then parse and insert every dependency. -/
def loadModuleWithSource (pl : LoaderPipeline) (imp : ModuleImporter)
    (fuel : Nat) (id : String) (uid : ModuleUID) (source : String)
    (cache : LoaderCache) :
    Option (Except LangError ((LoaderModule × List LoaderModule) × LoaderCache)) :=
  match pl.tokenize source with
  | .error e => some (.error e)
  | .ok tokens =>
    match pl.prepareModule tokens id uid with
    | .error e => some (.error e)
    | .ok pm =>
      match createParser pl imp fuel cache pm with
      | none => none
      | some (.error e) => some (.error e)
      | some (.ok modules) =>
        match pl.parseModule modules uid with
        | .error e => some (.error e)
        | .ok m =>
          match depsLoop pl modules m.imports (cacheInsert cache uid m) [] with
          | .error e => some (.error e)
          | .ok (deps, cache2) => some (.ok ((m, deps), cache2))

/-- Embedding of `ModuleLoader::load_module` (lines 78-95): resolve the UID
through the importer (`ModuleNotFound` on failure); a cached UID returns the
cached module immediately with an empty dependency list and an unchanged
cache; otherwise the source is loaded (`LoadModuleError` on failure) and
`load_module_with_source` runs. -/
def loadModule (pl : LoaderPipeline) (imp : ModuleImporter) (fuel : Nat)
    (cache : LoaderCache) (id : String) :
    Option (Except LangError ((LoaderModule × List LoaderModule) × LoaderCache)) :=
  match imp.getUniqueIdentifier id with
  | none => some (.error (.load (.moduleNotFound id)))
  | some uid =>
    match cacheLookup cache uid with
    | some m => some (.ok ((m, []), cache))
    | none =>
      match imp.loadModule id with
      | none => some (.error (.load (.loadModuleError id)))
      | some source => loadModuleWithSource pl imp fuel id uid source cache

/-! ## Parser and type checker

From `src/parser/src/parser_scope.rs` (the typed parser) and
`src/parser/src/parser_module_scope.rs`.  The helper crate parts that are
not in the snapshot (`utils.rs` with `parse_type_option` and
`parse_parameter_values`, the `expect_open_body` macro, `parse_body`, the
`predict_math_result` table and the `CLASS_CONSTRUCTOR_NAME` constant) are
modelled from the spec where a claim's input never reaches them; each such
definition says so. -/

/-- Global declaration kinds of a module scope (`GlobalKind` in
`parser_module_scope.rs`), each tagged with the UID owning it. -/
inductive PGlobalKind where
  | varG (uid : ModuleUID) (t : TypeKind)
  | funcG (uid : ModuleUID) (ft : FunctionType)
  | classG (uid : ModuleUID) (ct : ClassType)
  | enumG (uid : ModuleUID) (et : EnumType)

/-- Result of a scope lookup (`ScopeGetResult`). -/
inductive ScopeGetResult where
  | classR (uid : ModuleUID) (ct : ClassType)
  | enumR (uid : ModuleUID) (et : EnumType)
  | refR (uid : ModuleUID) (t : TypeKind)
  | noneR

/-- Module-level symbol table (`ModuleParserScope`). -/
structure ParserModuleScope where
  uid : ModuleUID
  globals : List (String × PGlobalKind)

/-- Embedding of `ModuleParserScope::get`: map the stored global kind to a
lookup result, a function global becoming a `Function`-typed reference. -/
def ParserModuleScope.get (m : ParserModuleScope) (name : String) : ScopeGetResult :=
  match m.globals.lookup name with
  | some (.varG uid t) => .refR uid t
  | some (.funcG uid ft) => .refR uid (.function ft)
  | some (.classG uid ct) => .classR uid ct
  | some (.enumG uid et) => .enumR uid et
  | none => .noneR

/-- A parser scope chain (`ParserScope`): local frames of declared
`(name, type)` pairs, the head frame innermost and most recent declarations
first (the source keeps two parallel vectors searched in reverse, which is
the same lookup), over the module scope.  `evalType` is the innermost
scope's `eval_type` cell written by `return`/`break`; the cells of enclosing
scopes are not tracked (no claim reads one). -/
structure PScope where
  moduleUid : ModuleUID
  frames : List (List (String × TypeKind))
  moduleScope : ParserModuleScope
  evalType : TypeKind

/-- Embedding of `ParserScope::get`: nearest frame binding first, then the
module scope; any frame hit is a reference owned by the current module. -/
def PScope.get (s : PScope) (name : String) : ScopeGetResult :=
  go s.frames
where
  /-- Walk the frames outward. -/
  go : List (List (String × TypeKind)) → ScopeGetResult
    | [] => s.moduleScope.get name
    | f :: fs =>
      match f.lookup name with
      | some t => .refR s.moduleUid t
      | none => go fs

/-- Embedding of `ParserScope::declare`: push onto the current frame. -/
def PScope.declare (s : PScope) (name : String) (t : TypeKind) : PScope :=
  match s.frames with
  | [] => { s with frames := [[(name, t)]] }
  | f :: fs => { s with frames := ((name, t) :: f) :: fs }

/-- Embedding of `ParserScope::new_child`: a fresh frame with a fresh
`eval_type` cell. -/
def PScope.pushChild (s : PScope) : PScope :=
  { s with frames := [] :: s.frames, evalType := .nothing }

/-- Drop the child frame when the Rust child scope goes out of scope. -/
def PScope.popChild (s : PScope) : PScope :=
  { s with frames := s.frames.tail }

/-- Modelled from the spec: `CLASS_CONSTRUCTOR_NAME` (the constant lives in
`common::constants`, not in the snapshot); the spec calls the constructor
method `new`. -/
def classConstructorName : String := "new"

/-- Literal token payload to static type (`value.borrow().into()` in the
`Literal` arm). -/
def literalTypeOf : LiteralKind → TypeKind
  | .nothing => .nothing
  | .int _ => .int
  | .bool _ => .bool
  | .string _ => .string

/-- Primitive type token to static type. -/
def primToType : PrimitiveType → TypeKind
  | .nothing => .nothing
  | .int => .int
  | .float => .float
  | .bool => .bool
  | .string => .string

/-- Modelled from the spec: `predict_math_result` (in the missing
`utils.rs`): `Int op Int = Int`, any `Float` promotes to `Float` (spec
section 4.4); the Rust signature returns a plain `TypeKind`, so the
remaining combinations are modelled as `Unknown`. -/
def predictMathResult (_op : MathOperatorKind) (l r : TypeKind) : TypeKind :=
  match l, r with
  | .int, .int => .int
  | .float, .int => .float
  | .int, .float => .float
  | .float, .float => .float
  | _, _ => .unknown

/-- First argument whose type is not compatible with the expected parameter
type, reported as the `WrongType(expected, got)` the source returns from its
index loop (`for i in 0..parameters.len()`); lengths are checked before the
loop runs. -/
def checkArgTypes : List ASTNode → List TypeKind → Option ParserErrorKind
  | [], _ => none
  | _, [] => none
  | p :: ps, t :: ts =>
    if !(p.evalType.isCompatible t) then some (.wrongType t p.evalType)
    else checkArgTypes ps ts

/-- Variant search of the enum-construction branch: the first variant with
the given name, with its index. -/
def findVariant : List (String × TypeKind) → String → Nat → Option (Nat × TypeKind)
  | [], _, _ => none
  | (v, t) :: rest, name, i =>
    if v == name then some (i, t) else findVariant rest name (i + 1)

/-- Modelled from the spec: `parse_type_option` (in the missing `utils.rs`):
an optional `: type` annotation; only the primitive-type form is modelled
(no claim's input carries an annotation), and anything else consumes
nothing. -/
def parseTypeOption : List Token → Option TypeKind × List Token
  | t1 :: t2 :: rest =>
    match t1.kind, t2.kind with
    | .operator .colon, .typeTok p => (some (primToType p), rest)
    | _, _ => (none, t1 :: t2 :: rest)
  | tokens => (none, tokens)

/-- Skip consecutive newline tokens. -/
def skipNewLines : List Token → List Token
  | [] => []
  | t :: rest => if t.kind = .newLine then skipNewLines rest else t :: rest

/-- Modelled from the spec: the `expect_open_body!` macro (the parser crate
root is not in the snapshot): a body opens with `:`, a line break and an
`Indent` (spec section 6 surface syntax); no claim's input opens a body. -/
def expectOpenBody : List Token → Except LangError (List Token)
  | [] => .error (.parser .unexpectedEndOfFile)
  | t :: rest =>
    match t.kind with
    | .operator .colon =>
      match skipNewLines rest with
      | [] => .error (.parser .unexpectedEndOfFile)
      | t2 :: rest2 =>
        if t2.kind = .indent then .ok rest2
        else .error (.parser .unexpectedToken)
    | _ => .error (.parser .unexpectedToken)

mutual

/-- Embedding of `ParserScope::parse_statement` (lines 77-355 of
`src/parser/src/parser_scope.rs`): parse one primary form, then run the
trailing infix loop on it.  Fuel-indexed; `none` means the fuel ran out. -/
def parseStatement : Nat → PScope → List Token →
    Option (Except LangError (ASTNode × PScope × List Token))
  | 0, _, _ => none
  | n + 1, scope, tokens =>
    match parsePrimary n scope tokens with
    | none => none
    | some (.error e) => some (.error e)
    | some (.ok (node, scope1, rest)) => parseInfixLoop n scope1 node rest

/-- The `match &token.kind` of `parse_statement` building the primary form.
A missing token where the source calls `pop_err` is `UnexpectedEndOfFile`.
The `Indent`/`Dedent` token kinds do not appear in the source match (its
token revision); they fall into the same `UnexpectedToken` arm as the other
rejected kinds.  In the parenthesised-expression form the source checks the
closing parenthesis before surfacing an inner parse error; an inner error is
propagated directly here (no claim's input reaches that corner). -/
def parsePrimary : Nat → PScope → List Token →
    Option (Except LangError (ASTNode × PScope × List Token))
  | 0, _, _ => none
  | n + 1, scope, tokens =>
    match tokens with
    | [] => some (.error (.parser .unexpectedEndOfFile))
    | token :: rest =>
      match token.kind with
      | .variableKw =>
        match rest with
        | [] => some (.error (.parser .unexpectedEndOfFile))
        | nameTok :: rest1 =>
          match nameTok.kind with
          | .symbol name =>
            match parseTypeOption rest1 with
            | (assignType, rest2) =>
              match rest2 with
              | [] => some (.error (.parser .unexpectedEndOfFile))
              | eqTok :: rest3 =>
                match eqTok.kind with
                | .operator .assign =>
                  match parseStatement n scope rest3 with
                  | none => none
                  | some (.error e) => some (.error e)
                  | some (.ok (value, scope1, rest4)) =>
                    match assignType with
                    | some tk =>
                      if !(tk.isCompatible value.evalType) then
                        some (.error (.parser (.wrongType tk value.evalType)))
                      else
                        some (.ok (ASTNode.mk (.variableDecl name value) tk,
                          scope1.declare name tk, rest4))
                    | none =>
                      some (.ok (ASTNode.mk (.variableDecl name value) value.evalType,
                        scope1.declare name value.evalType, rest4))
                | _ => some (.error (.parser .unexpectedToken))
          | _ => some (.error (.parser .unexpectedToken))
      | .symbol name =>
        match scope.get name with
        | .classR _ classType =>
          match rest with
          | [] => some (.error (.parser .unexpectedEndOfFile))
          | t1 :: rest1 =>
            match t1.kind with
            | .parenthesis .round .open_ =>
              match parseParameterValues n scope rest1 with
              | none => none
              | some (.error e) => some (.error e)
              | some (.ok (parameters, scope1, rest2)) =>
                match classType.methods.lookup classConstructorName with
                | some ctorFt =>
                  if parameters.length ≠ ctorFt.params.length then
                    some (.error (.parser (.invalidArgCount ctorFt.params.length)))
                  else
                    match checkArgTypes parameters ctorFt.params with
                    | some ek => some (.error (.parser ek))
                    | none =>
                      some (.ok (ASTNode.mk (.constructClass parameters classType)
                        (.classT classType), scope1, rest2))
                | none =>
                  if parameters.length ≠ 0 then
                    some (.error (.parser (.invalidArgCount 0)))
                  else
                    some (.ok (ASTNode.mk (.constructClass parameters classType)
                      (.classT classType), scope1, rest2))
            | _ => some (.error (.parser .unexpectedToken))
        | .enumR _ enumType =>
          match rest with
          | [] => some (.error (.parser .unexpectedEndOfFile))
          | t1 :: rest1 =>
            match t1.kind with
            | .operator .dot =>
              match rest1 with
              | [] => some (.error (.parser .unexpectedEndOfFile))
              | t2 :: rest2 =>
                match t2.kind with
                | .symbol variantName =>
                  match findVariant enumType.variants variantName 0 with
                  | none => some (.error (.parser (.invalidEnumVariant variantName)))
                  | some (variantId, variantType) =>
                    match rest2 with
                    | t3 :: rest3 =>
                      if t3.kind = .parenthesis .round .open_ then
                        match parseStatement n scope rest3 with
                        | none => none
                        | some (.error e) => some (.error e)
                        | some (.ok (construct, scope1, rest4)) =>
                          match rest4 with
                          | [] => some (.error (.parser .unexpectedEndOfFile))
                          | t4 :: rest5 =>
                            match t4.kind with
                            | .parenthesis .round .close =>
                              if !(construct.evalType.isCompatible variantType) then
                                some (.error (.parser
                                  (.wrongType variantType construct.evalType)))
                              else
                                some (.ok (ASTNode.mk
                                  (.constructEnumVariant construct variantType
                                    variantId enumType)
                                  (.enumT enumType), scope1, rest5))
                            | _ => some (.error (.parser .unexpectedToken))
                      else
                        let construct := ASTNode.mk (.literal .nothing) .nothing
                        if !(construct.evalType.isCompatible variantType) then
                          some (.error (.parser
                            (.wrongType variantType construct.evalType)))
                        else
                          some (.ok (ASTNode.mk
                            (.constructEnumVariant construct variantType
                              variantId enumType)
                            (.enumT enumType), scope, t3 :: rest3))
                    | [] =>
                      let construct := ASTNode.mk (.literal .nothing) .nothing
                      if !(construct.evalType.isCompatible variantType) then
                        some (.error (.parser
                          (.wrongType variantType construct.evalType)))
                      else
                        some (.ok (ASTNode.mk
                          (.constructEnumVariant construct variantType
                            variantId enumType)
                          (.enumT enumType), scope, []))
                | _ => some (.error (.parser .unexpectedToken))
            | _ => some (.error (.parser .unexpectedToken))
        | .refR uid t =>
          some (.ok (ASTNode.mk (.variableRef uid name) t, scope, rest))
        | .noneR => some (.error (.parser .varNotFound))
      | .literal v =>
        some (.ok (ASTNode.mk (.literal v) (literalTypeOf v), scope, rest))
      | .parenthesis .round .open_ =>
        match parseStatement n scope rest with
        | none => none
        | some (.error e) => some (.error e)
        | some (.ok (node, scope1, rest1)) =>
          match rest1 with
          | [] => some (.error (.parser .unexpectedEndOfFile))
          | t1 :: rest2 =>
            match t1.kind with
            | .parenthesis .round .close => some (.ok (node, scope1, rest2))
            | _ => some (.error (.parser .unexpectedToken))
      | .parenthesis .square .open_ =>
        match parseVectorItems n scope rest with
        | none => none
        | some (.error e) => some (.error e)
        | some (.ok (values, scope1, rest1)) =>
          let vectorType :=
            match values.head? with
            | some v => v.evalType
            | none => TypeKind.unknown
          some (.ok (ASTNode.mk (.vectorLiteral values)
            (.vector vectorType), scope1, rest1))
      | .parenthesis _ _ => some (.error (.parser .unexpectedToken))
      | .returnKw =>
        parseReturnBreak n scope .return_ rest
      | .breakKw =>
        parseReturnBreak n scope .break_ rest
      | .ifKw =>
        match parseStatement n scope rest with
        | none => none
        | some (.error e) => some (.error e)
        | some (.ok (condition, scope1, rest1)) =>
          match expectOpenBody rest1 with
          | .error e => some (.error e)
          | .ok rest2 =>
            match parseBody n scope1.pushChild rest2 with
            | none => none
            | some (.error e) => some (.error e)
            | some (.ok (body, scope2, rest3)) =>
              match parseElseIf n scope2.popChild rest3 with
              | none => none
              | some (.error e) => some (.error e)
              | some (.ok (els, scope3, rest4)) =>
                some (.ok (ASTNode.mk (.ifStatement condition body els) .nothing,
                  scope3, rest4))
      | .forKw =>
        match rest with
        | [] => some (.error (.parser .unexpectedEndOfFile))
        | nameTok :: rest1 =>
          match nameTok.kind with
          | .symbol iterName =>
            match rest1 with
            | [] => some (.error (.parser .unexpectedEndOfFile))
            | inTok :: rest2 =>
              match inTok.kind with
              | .operator .inOp =>
                match parseStatement n scope rest2 with
                | none => none
                | some (.error e) => some (.error e)
                | some (.ok (mn, scope1, rest3)) =>
                  match rest3 with
                  | [] => some (.error (.parser .unexpectedEndOfFile))
                  | rangeTok :: rest4 =>
                    match rangeTok.kind with
                    | .operator .range =>
                      match parseStatement n scope1 rest4 with
                      | none => none
                      | some (.error e) => some (.error e)
                      | some (.ok (mx, scope2, rest5)) =>
                        match expectOpenBody rest5 with
                        | .error e => some (.error e)
                        | .ok rest6 =>
                          match parseBody n
                              ((scope2.pushChild).declare iterName .int) rest6 with
                          | none => none
                          | some (.error e) => some (.error e)
                          | some (.ok (body, scope3, rest7)) =>
                            some (.ok (ASTNode.mk
                              (.forStatement mn mx body iterName) .nothing,
                              scope3.popChild, rest7))
                    | _ => some (.error (.parser .unexpectedToken))
              | _ => some (.error (.parser .unexpectedToken))
          | _ => some (.error (.parser .unexpectedToken))
      | .whileKw =>
        match parseStatement n scope rest with
        | none => none
        | some (.error e) => some (.error e)
        | some (.ok (condition, scope1, rest1)) =>
          match expectOpenBody rest1 with
          | .error e => some (.error e)
          | .ok rest2 =>
            match parseBody n scope1.pushChild rest2 with
            | none => none
            | some (.error e) => some (.error e)
            | some (.ok (body, scope2, rest3)) =>
              some (.ok (ASTNode.mk (.whileStatement condition body) .nothing,
                scope2.popChild, rest3))
      | .typeTok .nothing =>
        some (.ok (ASTNode.mk (.literal .nothing) .nothing, scope, rest))
      | .newLine => parseStatement n scope rest
      | _ => some (.error (.parser .unexpectedToken))

/-- The `Return`/`Break` arm of `parse_statement`: an optional value up to
the line break, the scope's `eval_type` cell updated to the value's type. -/
def parseReturnBreak : Nat → PScope → ReturnKind → List Token →
    Option (Except LangError (ASTNode × PScope × List Token))
  | 0, _, _, _ => none
  | n + 1, scope, rkind, rest =>
    match rest with
    | [] =>
      some (.ok (ASTNode.mk (.returnStatement none rkind) .nothing,
        { scope with evalType := .nothing }, []))
    | t1 :: rest1 =>
      if t1.kind = .newLine then
        some (.ok (ASTNode.mk (.returnStatement none rkind) .nothing,
          { scope with evalType := .nothing }, t1 :: rest1))
      else
        match parseStatement n scope (t1 :: rest1) with
        | none => none
        | some (.error e) => some (.error e)
        | some (.ok (value, scope1, rest2)) =>
          some (.ok (ASTNode.mk (.returnStatement (some value) rkind) .nothing,
            { scope1 with evalType := value.evalType }, rest2))

/-- The trailing loop of `parse_statement`: keep applying `parse_infix`
while it reports a valid infix, and return the node when it does not. -/
def parseInfixLoop : Nat → PScope → ASTNode → List Token →
    Option (Except LangError (ASTNode × PScope × List Token))
  | 0, _, _, _ => none
  | n + 1, scope, node, tokens =>
    match parseInfixOp n scope node tokens with
    | none => none
    | some (.error e) => some (.error e)
    | some (.ok (node1, true, scope1, tokens1)) => parseInfixLoop n scope1 node1 tokens1
    | some (.ok (node1, false, scope1, tokens1)) => some (.ok (node1, scope1, tokens1))

/-- Embedding of `ParserScope::parse_infix` (lines 387-538 of
`src/parser/src/parser_scope.rs`).  The boolean mirrors the source's flag
for whether a valid infix was consumed.  Note that every operand to the
right of an infix operator is parsed with the full `parse_statement`, which
itself ends in the infix loop: chained binary operators therefore group to
the right. -/
def parseInfixOp : Nat → PScope → ASTNode → List Token →
    Option (Except LangError (ASTNode × Bool × PScope × List Token))
  | 0, _, _, _ => none
  | n + 1, scope, node, tokens =>
    match tokens with
    | [] => some (.ok (node, false, scope, []))
    | tk :: rest =>
      match tk.kind with
      | .mathOperator op =>
        match parseStatement n scope rest with
        | none => none
        | some (.error e) => some (.error e)
        | some (.ok (right, scope1, rest1)) =>
          some (.ok (ASTNode.mk (.mathOperation op node right)
            (predictMathResult op node.evalType right.evalType),
            true, scope1, rest1))
      | .boolOperator op =>
        match parseStatement n scope rest with
        | none => none
        | some (.error e) => some (.error e)
        | some (.ok (right, scope1, rest1)) =>
          some (.ok (ASTNode.mk (.boolOperation op node right) .bool,
            true, scope1, rest1))
      | .parenthesis .square .open_ =>
        match parseStatement n scope rest with
        | none => none
        | some (.error e) => some (.error e)
        | some (.ok (value, scope1, rest1)) =>
          match rest1 with
          | [] => some (.error (.parser .unexpectedEndOfFile))
          | t1 :: rest2 =>
            match t1.kind with
            | .parenthesis .square .close =>
              match node.evalType with
              | .vector vt =>
                some (.ok (ASTNode.mk (.valueFieldAccess node value) vt,
                  true, scope1, rest2))
              | _ => some (.error (.parser .notIndexable))
            | _ => some (.error (.parser .unexpectedToken))
      | .parenthesis .round .open_ =>
        match parseParameterValues n scope rest with
        | none => none
        | some (.error e) => some (.error e)
        | some (.ok (parameters, scope1, rest1)) =>
          match node.evalType with
          | .function ft =>
            if parameters.length ≠ ft.params.length then
              some (.error (.parser (.invalidArgCount ft.params.length)))
            else
              match checkArgTypes parameters ft.params with
              | some ek => some (.error (.parser ek))
              | none =>
                some (.ok (ASTNode.mk (.functionInvok node parameters) ft.ret,
                  true, scope1, rest1))
          | _ => some (.error (.parser .notCallable))
      | .operator .dot =>
        match rest with
        | [] => some (.error (.parser .unexpectedEndOfFile))
        | fieldTok :: rest1 =>
          match fieldTok.kind with
          | .symbol fieldName =>
            match node.evalType with
            | .classT classType =>
              match classType.fields.lookup fieldName with
              | some ft =>
                some (.ok (ASTNode.mk (.fieldAccess node classType fieldName) ft,
                  true, scope, rest1))
              | none =>
                match classType.methods.lookup fieldName with
                | some mft =>
                  some (.ok (ASTNode.mk (.fieldAccess node classType fieldName)
                    (.function mft), true, scope, rest1))
                | none => some (.error (.parser .fieldDoesntExist))
            | _ => some (.error (.parser .invalidFieldAccess))
          | _ => some (.error (.parser .unexpectedToken))
      | .operator .assign =>
        match parseStatement n scope rest with
        | none => none
        | some (.error e) => some (.error e)
        | some (.ok (value, scope1, rest1)) =>
          match node.kind with
          | .variableRef _ name =>
            some (.ok (ASTNode.mk (.variableAsgn name value) .nothing,
              true, scope1, rest1))
          | .fieldAccess variable_ classType fieldName =>
            some (.ok (ASTNode.mk (.fieldAsgn variable_ classType fieldName value)
              .nothing, true, scope1, rest1))
          | .valueFieldAccess variable_ offset =>
            some (.ok (ASTNode.mk (.valueFieldAssign variable_ offset value)
              .nothing, true, scope1, rest1))
          | _ => some (.error (.parser (.unexpectedError "Invalid assignment")))
      | _ => some (.ok (node, false, scope, tokens))

/-- Embedding of `ParserScope::parse_else_if` (lines 357-384): an optional
`else`/`else if` chain after an if body. -/
def parseElseIf : Nat → PScope → List Token →
    Option (Except LangError (ElseType × PScope × List Token))
  | 0, _, _ => none
  | n + 1, scope, tokens =>
    match tokens with
    | [] => some (.ok (.none, scope, []))
    | tk :: rest =>
      if tk.kind = .elseKw then
        match rest with
        | t2 :: rest1 =>
          if t2.kind = .ifKw then
            match parseStatement n scope rest1 with
            | none => none
            | some (.error e) => some (.error e)
            | some (.ok (condition, scope1, rest2)) =>
              match expectOpenBody rest2 with
              | .error e => some (.error e)
              | .ok rest3 =>
                match parseBody n scope1.pushChild rest3 with
                | none => none
                | some (.error e) => some (.error e)
                | some (.ok (body, scope2, rest4)) =>
                  match parseElseIf n scope2.popChild rest4 with
                  | none => none
                  | some (.error e) => some (.error e)
                  | some (.ok (els, scope3, rest5)) =>
                    some (.ok (.elseIf condition body els, scope3, rest5))
          else
            match expectOpenBody (t2 :: rest1) with
            | .error e => some (.error e)
            | .ok rest2 =>
              match parseBody n scope.pushChild rest2 with
              | none => none
              | some (.error e) => some (.error e)
              | some (.ok (body, scope1, rest3)) =>
                some (.ok (.else_ body, scope1.popChild, rest3))
        | [] =>
          match expectOpenBody [] with
          | .error e => some (.error e)
          | .ok rest2 =>
            match parseBody n scope.pushChild rest2 with
            | none => none
            | some (.error e) => some (.error e)
            | some (.ok (body, scope1, rest3)) =>
              some (.ok (.else_ body, scope1.popChild, rest3))
      else some (.ok (.none, scope, tk :: rest))

/-- Modelled from the spec: `parse_body` (not in the snapshot): statements
separated by line breaks until the matching `Dedent` (or the end of the
body's token snapshot). -/
def parseBody : Nat → PScope → List Token →
    Option (Except LangError (List ASTNode × PScope × List Token))
  | 0, _, _ => none
  | n + 1, scope, tokens =>
    match tokens with
    | [] => some (.ok ([], scope, []))
    | tk :: rest =>
      match tk.kind with
      | .dedent => some (.ok ([], scope, rest))
      | .newLine => parseBody n scope rest
      | _ =>
        match parseStatement n scope (tk :: rest) with
        | none => none
        | some (.error e) => some (.error e)
        | some (.ok (stmt, scope1, rest1)) =>
          match parseBody n scope1 rest1 with
          | none => none
          | some (.error e) => some (.error e)
          | some (.ok (stmts, scope2, rest2)) =>
            some (.ok (stmt :: stmts, scope2, rest2))

/-- Modelled from the spec: `parse_parameter_values` (in the missing
`utils.rs`): comma-separated argument expressions up to the closing round
parenthesis. -/
def parseParameterValues : Nat → PScope → List Token →
    Option (Except LangError (List ASTNode × PScope × List Token))
  | 0, _, _ => none
  | n + 1, scope, tokens =>
    match tokens with
    | [] => some (.error (.parser .unexpectedEndOfFile))
    | tk :: rest =>
      if tk.kind = .parenthesis .round .close then some (.ok ([], scope, rest))
      else
        match parseStatement n scope (tk :: rest) with
        | none => none
        | some (.error e) => some (.error e)
        | some (.ok (arg, scope1, rest1)) =>
          match rest1 with
          | [] => some (.error (.parser .unexpectedEndOfFile))
          | sep :: rest2 =>
            match sep.kind with
            | .operator .comma =>
              match parseParameterValues n scope1 rest2 with
              | none => none
              | some (.error e) => some (.error e)
              | some (.ok (args, scope2, rest3)) =>
                some (.ok (arg :: args, scope2, rest3))
            | .parenthesis .round .close => some (.ok ([arg], scope1, rest2))
            | _ => some (.error (.parser .unexpectedToken))

/-- Modelled from the spec: the element walk of `parse_vector_values` (in
the missing `utils.rs`): comma-separated element expressions up to the
closing square bracket; the caller derives the vector's element type from
the first element (`Unknown` when empty). -/
def parseVectorItems : Nat → PScope → List Token →
    Option (Except LangError (List ASTNode × PScope × List Token))
  | 0, _, _ => none
  | n + 1, scope, tokens =>
    match tokens with
    | [] => some (.error (.parser .unexpectedEndOfFile))
    | tk :: rest =>
      if tk.kind = .parenthesis .square .close then some (.ok ([], scope, rest))
      else
        match parseStatement n scope (tk :: rest) with
        | none => none
        | some (.error e) => some (.error e)
        | some (.ok (arg, scope1, rest1)) =>
          match rest1 with
          | [] => some (.error (.parser .unexpectedEndOfFile))
          | sep :: rest2 =>
            match sep.kind with
            | .operator .comma =>
              match parseVectorItems n scope1 rest2 with
              | none => none
              | some (.error e) => some (.error e)
              | some (.ok (args, scope2, rest3)) =>
                some (.ok (arg :: args, scope2, rest3))
            | .parenthesis .square .close => some (.ok ([arg], scope1, rest2))
            | _ => some (.error (.parser .unexpectedToken))

end

/-! ## WASM lowerer

From `src/wasm/src/build_code.rs` (`ModuleBuilder`, `FunctionBuilder`) and
`src/wasm/src/build.rs` (`WasmBuilder`).  The `wasm_encoder` crate is the
opaque binary writer: instructions and sections are represented as data and
never serialised here. -/

/-- WASM value types used by the lowerer (`wasm_encoder::ValType`; only
`I32` and `F32` are produced). -/
inductive WasmValType where
  | i32
  | f32
  deriving DecidableEq

/-- Block types used by the lowerer (only the empty one appears). -/
inductive WasmBlockType where
  | empty
  deriving DecidableEq

/-- The instructions `FunctionBuilder::build_statement` emits
(`wasm_encoder::Instruction`).  `F32Const` is omitted with the floats. -/
inductive WasmInstr where
  | localGet (i : Nat)
  | localSet (i : Nat)
  | call (i : Nat)
  | i32Const (v : Int)
  | i32Add
  | i32Sub
  | i32Mul
  | i32DivS
  | i32Eq
  | i32Ne
  | i32GtS
  | i32LtS
  | i32GeS
  | i32LeS
  | returnInstr
  | ifInstr (bt : WasmBlockType)
  | endInstr
  deriving DecidableEq

/-- Error messages of the lowerer (`wasm/src/errors.rs` is not in the
snapshot; the constant names are `FUNC_NOT_FOUND`, `LOCAL_NOT_FOUND` and
`UNSUPPORTED_FUNC_INVOKE`, their exact texts modelled).  They are raised
through the legacy `LangError::new_runtime(message)` constructor. -/
def wasmFuncNotFound : String := "function not found"

/-- Message for a variable reference that is not a declared local. -/
def wasmLocalNotFound : String := "local not found"

/-- Message for an invocation whose callee is not a plain variable
reference. -/
def wasmUnsupportedFuncInvoke : String := "unsupported function invocation"

/-- Message standing for the `todo!()` panics of the lowerer (string
literals, modulus, power); a panic is modelled as this error. -/
def wasmTodo : String := "todo"

/-- Message standing for the AST constructors that do not exist in the
lowerer revision of the snapshot (its `build_statement` match is exhaustive
without them). -/
def wasmUnhandledNode : String := "unhandled node kind"

/-- State of a `FunctionBuilder`: the declared local names in order and the
instructions emitted so far (`self.locals` and the `wasm_encoder::Function`
being filled). -/
structure BuildSt where
  locals : List String
  instrs : List WasmInstr
  deriving DecidableEq

/-- Embedding of `ModuleBuilder::get_func`: position of the name in the
module's function vector. -/
def wasmGetFunc (functions : List String) (name : String) : Except LangError Nat :=
  match functions.indexOf? name with
  | some i => .ok i
  | none => .error (.runtimeMsg wasmFuncNotFound)

/-- Embedding of `FunctionBuilder::get_local`: position of the name among
the declared locals. -/
def wasmGetLocal (locals : List String) (name : String) : Except LangError Nat :=
  match locals.indexOf? name with
  | some i => .ok i
  | none => .error (.runtimeMsg wasmLocalNotFound)

mutual

/-- Embedding of `FunctionBuilder::build_statement` (lines 49-159 of
`src/wasm/src/build_code.rs`), with fuel (the source recursion is
structural; the fuel only simplifies the Lean termination argument).
`functions` is the surrounding `ModuleBuilder`'s function-name vector.  The
`ForStatement`, `WhileStatement`, `FieldAccess`, `VectorLiteral`,
`ObjectLiteral`, `FunctionLiteral` and `ValueFieldAccess` arms of the
source are empty blocks: they emit no instructions and change nothing. -/
def buildStatement : Nat → List String → BuildSt → ASTNode →
    Option (Except LangError BuildSt)
  | 0, _, _, _ => none
  | n + 1, functions, st, .mk k _ =>
    match k with
    | .variableDecl name value =>
      let locals1 := st.locals ++ [name]
      let id := locals1.length - 1
      match buildStatement n functions { st with locals := locals1 } value with
      | none => none
      | some (.error e) => some (.error e)
      | some (.ok st1) =>
        some (.ok { st1 with instrs := st1.instrs ++ [.localSet id] })
    | .variableRef _ name =>
      match wasmGetLocal st.locals name with
      | .error e => some (.error e)
      | .ok local_ =>
        some (.ok { st with instrs := st.instrs ++ [.localGet local_] })
    | .variableAsgn name value =>
      match buildStatement n functions st value with
      | none => none
      | some (.error e) => some (.error e)
      | some (.ok st1) =>
        match wasmGetLocal st1.locals name with
        | .error e => some (.error e)
        | .ok local_ =>
          some (.ok { st1 with instrs := st1.instrs ++ [.localSet local_] })
    | .functionInvok variable_ parameters =>
      match variable_.kind with
      | .variableRef _ name =>
        match wasmGetFunc functions name with
        | .error e => some (.error e)
        | .ok funcId =>
          match buildStatementList n functions st parameters with
          | none => none
          | some (.error e) => some (.error e)
          | some (.ok st1) =>
            some (.ok { st1 with instrs := st1.instrs ++ [.call funcId] })
      | _ => some (.error (.runtimeMsg wasmUnsupportedFuncInvoke))
    | .literal v =>
      match v with
      | .nothing => some (.ok st)
      | .int i => some (.ok { st with instrs := st.instrs ++ [.i32Const i] })
      | .string _ => some (.error (.runtimeMsg wasmTodo))
      | .bool _ => some (.error (.runtimeMsg wasmTodo))
    | .mathOperation operation left right =>
      match buildStatement n functions st left with
      | none => none
      | some (.error e) => some (.error e)
      | some (.ok st1) =>
        match buildStatement n functions st1 right with
        | none => none
        | some (.error e) => some (.error e)
        | some (.ok st2) =>
          match operation with
          | .plus => some (.ok { st2 with instrs := st2.instrs ++ [.i32Add] })
          | .minus => some (.ok { st2 with instrs := st2.instrs ++ [.i32Sub] })
          | .multiply => some (.ok { st2 with instrs := st2.instrs ++ [.i32Mul] })
          | .divide => some (.ok { st2 with instrs := st2.instrs ++ [.i32DivS] })
          | .modulus => some (.error (.runtimeMsg wasmTodo))
          | .power => some (.error (.runtimeMsg wasmTodo))
    | .boolOperation operation left right =>
      match buildStatement n functions st left with
      | none => none
      | some (.error e) => some (.error e)
      | some (.ok st1) =>
        match buildStatement n functions st1 right with
        | none => none
        | some (.error e) => some (.error e)
        | some (.ok st2) =>
          let op :=
            match operation with
            | .equal => WasmInstr.i32Eq
            | .different => WasmInstr.i32Ne
            | .bigger => WasmInstr.i32GtS
            | .smaller => WasmInstr.i32LtS
            | .biggerEq => WasmInstr.i32GeS
            | .smallerEq => WasmInstr.i32LeS
          some (.ok { st2 with instrs := st2.instrs ++ [op] })
    | .returnStatement value _ =>
      match value with
      | some v =>
        match buildStatement n functions st v with
        | none => none
        | some (.error e) => some (.error e)
        | some (.ok st1) =>
          some (.ok { st1 with instrs := st1.instrs ++ [.returnInstr] })
      | none => some (.ok { st with instrs := st.instrs ++ [.returnInstr] })
    | .ifStatement condition body _ =>
      match buildStatement n functions st condition with
      | none => none
      | some (.error e) => some (.error e)
      | some (.ok st1) =>
        match buildStatementList n functions
            { st1 with instrs := st1.instrs ++ [.ifInstr .empty] } body with
        | none => none
        | some (.error e) => some (.error e)
        | some (.ok st2) =>
          some (.ok { st2 with instrs := st2.instrs ++ [.endInstr] })
    | .forStatement _ _ _ _ => some (.ok st)
    | .whileStatement _ _ => some (.ok st)
    | .fieldAccess _ _ _ => some (.ok st)
    | .vectorLiteral _ => some (.ok st)
    | .objectLiteral _ => some (.ok st)
    | .functionLiteral _ => some (.ok st)
    | .valueFieldAccess _ _ => some (.ok st)
    | .fieldAsgn _ _ _ _ => some (.error (.runtimeMsg wasmUnhandledNode))
    | .valueFieldAssign _ _ _ => some (.error (.runtimeMsg wasmUnhandledNode))
    | .constructClass _ _ => some (.error (.runtimeMsg wasmUnhandledNode))
    | .constructEnumVariant _ _ _ _ => some (.error (.runtimeMsg wasmUnhandledNode))

/-- Statement-list walk of the lowerer (`for node in body` / `for param in
parameters`). -/
def buildStatementList : Nat → List String → BuildSt → List ASTNode →
    Option (Except LangError BuildSt)
  | 0, _, _, _ => none
  | _ + 1, _, st, [] => some (.ok st)
  | n + 1, functions, st, x :: xs =>
    match buildStatement n functions st x with
    | none => none
    | some (.error e) => some (.error e)
    | some (.ok st1) => buildStatementList n functions st1 xs

end

/-- One function of a built module as `WasmBuilder::build` consumes it
(`ModuleBuilderResult`; the builder revision producing it is not in the
snapshot, the fields are the ones `build.rs` reads: name, parameter types,
optional return type, locals and instructions). -/
structure WasmFuncResult where
  name : String
  params : List WasmValType
  ret : Option WasmValType
  locals : List (String × WasmValType)
  instructions : List WasmInstr

/-- Result of `ModuleBuilder::build` as consumed by `WasmBuilder::build`. -/
structure ModuleBuilderResult where
  functions : List WasmFuncResult

/-- The four section payloads the builder can emit, tagged by the
`wasm_encoder` section they are written to. -/
inductive WasmSection where
  | typeSection (entries : List (List WasmValType × List WasmValType))
  | functionSection (indices : List Nat)
  | exportSection (entries : List (String × Nat))
  | codeSection (entries : List (List (Nat × WasmValType) × List WasmInstr))

/-- Section tags, for stating the emission order. -/
inductive WasmSectionTag where
  | typeTag
  | functionTag
  | exportTag
  | codeTag
  deriving DecidableEq

/-- Tag of a section. -/
def WasmSection.tag : WasmSection → WasmSectionTag
  | .typeSection _ => .typeTag
  | .functionSection _ => .functionTag
  | .exportSection _ => .exportTag
  | .codeSection _ => .codeTag

/-- Embedding of `WasmBuilder::build_types`: one type entry per function,
parameters as given and the optional return type as a zero- or one-element
result list. -/
def buildTypes (result : ModuleBuilderResult) : WasmSection :=
  .typeSection (result.functions.map fun f =>
    (f.params, match f.ret with
      | some r => [r]
      | none => []))

/-- Embedding of `WasmBuilder::build_functions`: function `i` uses type
`i`. -/
def buildFunctions (result : ModuleBuilderResult) : WasmSection :=
  .functionSection (List.range result.functions.length)

/-- Embedding of `WasmBuilder::build_exports` (lines 66-74 of
`src/wasm/src/build.rs`): every function is exported under its source name
at its index in the function vector. -/
def buildExports (result : ModuleBuilderResult) : WasmSection :=
  .exportSection (result.functions.mapIdx fun i f => (f.name, i))

/-- Embedding of `WasmBuilder::build_code`: per function, the indexed locals
and the instruction list. -/
def buildCode (result : ModuleBuilderResult) : WasmSection :=
  .codeSection (result.functions.map fun f =>
    (f.locals.mapIdx fun i lv => (i, lv.2), f.instructions))

/-- Embedding of `WasmBuilder::build` (lines 21-35 of
`src/wasm/src/build.rs`): the module is the four sections written in the
order Type, Function, Export, Code. -/
def wasmBuild (result : ModuleBuilderResult) : List WasmSection :=
  [buildTypes result, buildFunctions result, buildExports result, buildCode result]

/-! ## Predicates and concrete scenarios used by the claims -/

/-- Whether a value is one of the two callable kinds dispatched by
`invoke_function` (`Function` or `ExtFunction`). -/
def LangValue.isCallable : LangValue → Bool
  | .function _ => true
  | .extFunction _ => true
  | _ => false

/-- Whether a value is a `Function` (the only kind
`InterpreterFunction::call` accepts). -/
def LangValue.isFunctionVal : LangValue → Bool
  | .function _ => true
  | _ => false

/-- Whether a node kind is one of the three the assignment infix rewrites
(`VariableRef`, `FieldAccess`, `ValueFieldAccess`). -/
def NodeKind.isAssignable : NodeKind → Bool
  | .variableRef _ _ => true
  | .fieldAccess _ _ _ => true
  | .valueFieldAccess _ _ => true
  | _ => false

/-- Token constructor with zeroed offsets for concrete scenarios. -/
def mkTok (k : TokenKind) : Token := ⟨k, 0, 0⟩

/-- Token stream of the source declaration `var x = 2 + 3 * 4`. -/
def c1Tokens : List Token :=
  [mkTok .variableKw, mkTok (.symbol "x"), mkTok (.operator .assign),
   mkTok (.literal (.int 2)), mkTok (.mathOperator .plus),
   mkTok (.literal (.int 3)), mkTok (.mathOperator .multiply),
   mkTok (.literal (.int 4)), mkTok .newLine]

/-- A fresh parser scope over an empty module scope. -/
def c1ParserScope : PScope := ⟨0, [[]], ⟨0, []⟩, .nothing⟩

/-- Parse of the declaration `var x = 2 + 3 * 4`. -/
def c1Parse : Option (Except LangError (ASTNode × PScope × List Token)) :=
  parseStatement 32 c1ParserScope c1Tokens

/-- The expression tree the parser actually builds for `2 + 3 * 4`: the
right operand of `+` is parsed by a recursive `parse_statement` that
consumes the following `* 4`, so the tree is `2 + (3 * 4)`. -/
def c1Expr : ASTNode :=
  .mk (.mathOperation .plus
    (.mk (.literal (.int 2)) .int)
    (.mk (.mathOperation .multiply
      (.mk (.literal (.int 3)) .int)
      (.mk (.literal (.int 4)) .int)) .int)) .int

/-- Evaluation context with no other modules and no external functions. -/
def c1Env : EvalEnv :=
  ⟨fun _ _ => none, fun _ _ => .error (.runtime .cantConvertValue)⟩

/-- A zero-parameter function whose body is `return x` (module UID 0). -/
def c1Returner : FunctionVal :=
  .mk [.mk (.returnStatement (some (.mk (.variableRef 0 "x") .int)) .return_)
    .nothing] []

/-- End-to-end result of claim C1's scenario: parse the declaration,
evaluate it in a fresh scope, then invoke a function returning `x`. -/
def c1Result : Option EvalResult :=
  match c1Parse with
  | some (.ok (declNode, _, _)) =>
    match evalAst 32 c1Env ⟨[[]]⟩ declNode with
    | some (.ok _, s1) =>
      match invokeFunction 32 c1Env s1 (.function c1Returner) [] with
      | some (r, _) => some r
      | none => none
    | _ => none
  | _ => none

/-- Importer of claim C2's cyclic scenario: modules `a` (UID 0) and `b`
(UID 1), each loadable. -/
def c2Imp : ModuleImporter :=
  ⟨fun id => if id = "a" then some 0 else if id = "b" then some 1 else none,
   fun id =>
    if id = "a" then some "source-a"
    else if id = "b" then some "source-b" else none⟩

/-- Pipeline of claim C2's cyclic scenario: pre-parsing `a` finds the import
`b` and pre-parsing `b` finds the import `a` (the import cycle `a → b → a`);
parsing itself is never reached. -/
def c2Pl : LoaderPipeline :=
  ⟨fun _ => .ok [],
   fun _ id _ =>
    if id = "a" then .ok ⟨["b"]⟩
    else if id = "b" then .ok ⟨["a"]⟩ else .ok ⟨[]⟩,
   fun _ u => .ok ⟨u, "", [], ⟨[]⟩⟩⟩

/-- Importer of claim C4's scenario: one module `m` with UID 7. -/
def c4Imp : ModuleImporter :=
  ⟨fun id => if id = "m" then some 7 else none,
   fun id => if id = "m" then some "source-m" else none⟩

/-- The parsed module of claim C4's scenario. -/
def c4Module : LoaderModule := ⟨7, "m", [], ⟨[]⟩⟩

/-- Pipeline of claim C4's scenario: no imports, parsing yields
`c4Module`. -/
def c4Pl : LoaderPipeline :=
  ⟨fun _ => .ok [], fun _ _ _ => .ok ⟨[]⟩, fun _ u => .ok ⟨u, "m", [], ⟨[]⟩⟩⟩

/-! ## Claims about the tokenizer (C3) -/

/-- Specification of the dedent loop: with the target column present in the
remaining stack, one `Dedent` per popped level down to it; absent, the
`InvalidIndent` error. -/
theorem dedentLoop_spec (new : Nat) : ∀ (rest : List Nat) (acc : List TokenKind),
    (new ∈ rest →
      dedentLoop rest new acc =
        .ok (acc ++ List.replicate (rest.indexOf new + 1) TokenKind.dedent,
          rest.drop (rest.indexOf new))) ∧
    (new ∉ rest → dedentLoop rest new acc = .error .invalidIndent) := by
  intro rest
  induction rest with
  | nil =>
    intro acc
    exact ⟨fun h => absurd h (List.not_mem_nil _), fun _ => rfl⟩
  | cons top r ih =>
    intro acc
    constructor
    · intro hmem
      by_cases htop : top = new
      · subst htop
        simp [dedentLoop, List.indexOf_cons_self]
      · have hmem' : new ∈ r := by
          rcases List.mem_cons.mp hmem with h | h
          · exact absurd h.symm htop
          · exact h
        have hidx := List.indexOf_cons_ne r htop
        rw [dedentLoop, if_neg htop, (ih (acc ++ [TokenKind.dedent])).1 hmem', hidx]
        simp [List.replicate_succ, List.append_assoc]
    · intro hmem
      have htop : top ≠ new := fun h => hmem (h ▸ List.mem_cons_self top r)
      have hmem' : new ∉ r := fun h => hmem (List.mem_cons_of_mem _ h)
      rw [dedentLoop, if_neg htop]
      exact (ih (acc ++ [TokenKind.dedent])).2 hmem'

/-- Claim C3 (counterexample): a `ChangeIndentation` whose new column equals
the stack top is claimed to emit no `Indent` or `Dedent` token; the
tokenizer's `else` branch covers this case and emits an `Indent` (and pushes
a duplicate level). -/
theorem c3_equal_column_emits_indent :
    handleIndentation [0] 0 = .ok ([TokenKind.indent], [0, 0]) ∧
    ([TokenKind.indent] : List TokenKind) ≠ [] :=
  ⟨rfl, by decide⟩

/-- Claim C3 (amended): for a stack `top :: rest`, a new column that is
greater than *or equal to* the top pushes the new column and emits exactly
one `Indent`; a smaller new column pops levels, emitting one `Dedent` per
popped level, until the top equals the new column, and reports the
`InvalidIndent` error when no stack level matches. -/
theorem c3_indentation (stack : List Nat) (top newIndent : Nat) (rest : List Nat)
    (hs : stack = top :: rest) :
    (top ≤ newIndent →
      handleIndentation stack newIndent =
        .ok ([TokenKind.indent], newIndent :: top :: rest)) ∧
    (newIndent < top → newIndent ∈ rest →
      handleIndentation stack newIndent =
        .ok (List.replicate (rest.indexOf newIndent + 1) TokenKind.dedent,
          rest.drop (rest.indexOf newIndent)) ∧
      (rest.drop (rest.indexOf newIndent)).head? = some newIndent) ∧
    (newIndent < top → newIndent ∉ rest →
      handleIndentation stack newIndent = .error .invalidIndent) := by
  subst hs
  refine ⟨fun hle => ?_, fun hlt hmem => ?_, fun hlt hmem => ?_⟩
  · rw [handleIndentation, if_neg (by omega)]
  · constructor
    · rw [handleIndentation, if_pos hlt]
      simpa using (dedentLoop_spec newIndent rest []).1 hmem
    · clear hlt
      induction rest with
      | nil => cases hmem
      | cons b r ih =>
        by_cases hb : b = newIndent
        · subst hb
          simp [List.indexOf_cons_self]
        · rw [List.indexOf_cons_ne r hb, List.drop_succ_cons]
          exact ih (by
            rcases List.mem_cons.mp hmem with h | h
            · exact absurd h.symm hb
            · exact h)
  · rw [handleIndentation, if_pos hlt]
    exact (dedentLoop_spec newIndent rest []).2 hmem

/-- Witness for C3: each clause of the amended statement applied at a
concrete stack. -/
theorem c3_indentation_witness :
    handleIndentation [0] 2 = .ok ([TokenKind.indent], [2, 0]) ∧
    handleIndentation [4, 2, 0] 0 = .ok ([TokenKind.dedent, TokenKind.dedent], [0]) ∧
    handleIndentation [4, 0] 2 = .error .invalidIndent := by
  refine ⟨?_, ?_, ?_⟩
  · exact (c3_indentation [0] 0 2 [] rfl).1 (by decide)
  · have h := ((c3_indentation [4, 2, 0] 4 0 [2, 0] rfl).2.1 (by decide) (by decide)).1
    exact h.trans (by rfl)
  · exact (c3_indentation [4, 0] 4 2 [0] rfl).2.2 (by decide) (by decide)

/-! ## Claims about the WASM lowerer (C8, C9) -/

/-- Claim C8 (counterexample): a while statement with a condition and a
non-empty body is claimed to lower to a `loop…br_if…end` sequence containing
the condition test and the body; the lowerer's `WhileStatement` arm is an
empty block, so lowering it emits no instruction at all (and the same holds
for `ForStatement`). -/
theorem c8_loop_lowering_emits_nothing :
    buildStatement 9 []
      { locals := [], instrs := [] }
      (.mk (.whileStatement (.mk (.literal (.int 1)) .int)
        [.mk (.returnStatement none .return_) .nothing]) .nothing) =
      some (.ok { locals := [], instrs := [] }) ∧
    buildStatement 9 []
      { locals := [], instrs := [] }
      (.mk (.forStatement (.mk (.literal (.int 0)) .int)
        (.mk (.literal (.int 3)) .int)
        [.mk (.returnStatement none .return_) .nothing] "i") .nothing) =
      some (.ok { locals := [], instrs := [] }) ∧
    ({ locals := [], instrs := [] } : BuildSt).instrs = [] :=
  ⟨rfl, rfl, rfl⟩

/-- Claim C8 (amended): the lowerer compiles every if statement to a wasm
`if…end` block with the empty block type and every return statement to the
wasm `return` instruction; the `ForStatement` and `WhileStatement` arms are
empty blocks that emit no instructions and leave the builder state
unchanged (no `loop…br_if…end` lowering exists). -/
theorem c8_control_lowering :
    (∀ (n : Nat) fns st l r body iter t,
      buildStatement (n + 1) fns st (.mk (.forStatement l r body iter) t) =
        some (.ok st)) ∧
    (∀ (n : Nat) fns st cond body t,
      buildStatement (n + 1) fns st (.mk (.whileStatement cond body) t) =
        some (.ok st)) ∧
    (∀ (n : Nat) fns st cond body els t st1 st2,
      buildStatement n fns st cond = some (.ok st1) →
      buildStatementList n fns
          { st1 with instrs := st1.instrs ++ [.ifInstr .empty] } body =
        some (.ok st2) →
      buildStatement (n + 1) fns st (.mk (.ifStatement cond body els) t) =
        some (.ok { st2 with instrs := st2.instrs ++ [.endInstr] })) ∧
    (∀ (n : Nat) fns st v rk t st1,
      buildStatement n fns st v = some (.ok st1) →
      buildStatement (n + 1) fns st (.mk (.returnStatement (some v) rk) t) =
        some (.ok { st1 with instrs := st1.instrs ++ [.returnInstr] })) ∧
    (∀ (n : Nat) fns st rk t,
      buildStatement (n + 1) fns st (.mk (.returnStatement none rk) t) =
        some (.ok { st with instrs := st.instrs ++ [.returnInstr] })) := by
  refine ⟨fun n fns st l r body iter t => rfl,
    fun n fns st cond body t => rfl,
    fun n fns st cond body els t st1 st2 h1 h2 => ?_,
    fun n fns st v rk t st1 h1 => ?_,
    fun n fns st rk t => rfl⟩
  · simp [buildStatement, h1, h2]
  · simp [buildStatement, h1]

/-- Witness for C8: the if and return clauses applied at a concrete
function. -/
theorem c8_control_lowering_witness :
    buildStatement 2 []
      { locals := [], instrs := [] }
      (.mk (.ifStatement (.mk (.literal (.int 1)) .int) [] .none) .nothing) =
      some (.ok { locals := [], instrs :=
        [.i32Const 1, .ifInstr .empty, .endInstr] }) ∧
    buildStatement 2 []
      { locals := [], instrs := [] }
      (.mk (.returnStatement (some (.mk (.literal (.int 7)) .int)) .return_)
        .nothing) =
      some (.ok { locals := [], instrs := [.i32Const 7, .returnInstr] }) := by
  constructor
  · have h := c8_control_lowering.2.2.1 1 [] { locals := [], instrs := [] }
      (.mk (.literal (.int 1)) .int) [] .none .nothing
      { locals := [], instrs := [.i32Const 1] }
      { locals := [], instrs := [.i32Const 1, .ifInstr .empty] }
      rfl rfl
    exact h.trans (by rfl)
  · have h := c8_control_lowering.2.2.2.1 1 [] { locals := [], instrs := [] }
      (.mk (.literal (.int 7)) .int) .return_ .nothing
      { locals := [], instrs := [.i32Const 7] } rfl
    exact h.trans (by rfl)

/-- Claim C9: the lowered module is exactly four sections in the order
Type, Function, Export, Code, and the export section exports every
function under its source name at its index in the function vector. -/
theorem c9_sections_and_exports (result : ModuleBuilderResult) :
    (wasmBuild result).map WasmSection.tag =
      [WasmSectionTag.typeTag, .functionTag, .exportTag, .codeTag] ∧
    (wasmBuild result).length = 4 ∧
    (wasmBuild result).get? 2 =
      some (.exportSection (result.functions.mapIdx fun i f => (f.name, i))) ∧
    ∀ (i : Nat) (h : i < result.functions.length),
      (result.functions.mapIdx fun i f => (f.name, i)).get? i =
        some ((result.functions.get ⟨i, h⟩).name, i) := by
  refine ⟨rfl, rfl, rfl, fun i h => ?_⟩
  have h' : i < (result.functions.mapIdx fun i f => (f.name, i)).length := by
    simpa using h
  rw [List.get?_eq_get h', List.get_mapIdx result.functions _ i h]

/-! ## Claims about the interpreter engine (C10) -/

/-- Claim C10: `get_function` builds the callable unconditionally, checking
neither the module nor the function; a missing module, a missing variable
and a non-function value are reported only when the callable is invoked, as
`ModuleNotFound`, `VarNotFound` and `ValueNotFunc` respectively. -/
theorem c10_get_function_defers_checks :
    (∀ (store : ModuleStore) (uid : ModuleUID) (name : String),
      getFunction store uid name =
        some { moduleStore := store, module := uid, name := name }) ∧
    (∀ (A R : Type) (store : ModuleStore) (uid : ModuleUID) (name : String)
      (env : EvalEnv) (intoE : LangValue → Option A) (conc : A → Option R)
      (fuel : Nat),
      store.lookup uid = none →
      interpCall { moduleStore := store, module := uid, name := name }
          env intoE conc fuel =
        some (.error (.runtime (.moduleNotFound uid)))) ∧
    (∀ (A R : Type) (store : ModuleStore) (uid : ModuleUID) (name : String)
      (env : EvalEnv) (intoE : LangValue → Option A) (conc : A → Option R)
      (fuel : Nat) (m : InterpreterModule),
      store.lookup uid = some m →
      m.scope.lookup name = none →
      interpCall { moduleStore := store, module := uid, name := name }
          env intoE conc fuel =
        some (.error (.runtime (.varNotFound name)))) ∧
    (∀ (A R : Type) (store : ModuleStore) (uid : ModuleUID) (name : String)
      (env : EvalEnv) (intoE : LangValue → Option A) (conc : A → Option R)
      (fuel : Nat) (m : InterpreterModule) (v : LangValue),
      store.lookup uid = some m →
      m.scope.lookup name = some v →
      v.isFunctionVal = false →
      interpCall { moduleStore := store, module := uid, name := name }
          env intoE conc fuel =
        some (.error (.runtime .valueNotFunc))) := by
  refine ⟨fun store uid name => rfl,
    fun A R store uid name env intoE conc fuel h => ?_,
    fun A R store uid name env intoE conc fuel m h1 h2 => ?_,
    fun A R store uid name env intoE conc fuel m v h1 h2 h3 => ?_⟩
  · simp [interpCall, h]
  · simp [interpCall, h1, h2]
  · cases v <;> simp_all [interpCall, LangValue.isFunctionVal]

/-- Witness for C10: the three deferred errors at concrete stores. -/
theorem c10_witness :
    getFunction [] 5 "f" = some { moduleStore := [], module := 5, name := "f" } ∧
    @interpCall LangValue LangValue
      { moduleStore := [], module := 5, name := "f" } c1Env some some 3 =
      some (.error (.runtime (.moduleNotFound 5))) ∧
    @interpCall LangValue LangValue
      { moduleStore := [(5, ⟨[]⟩)], module := 5, name := "f" } c1Env some some 3 =
      some (.error (.runtime (.varNotFound "f"))) ∧
    @interpCall LangValue LangValue
      { moduleStore := [(5, ⟨[("f", .int 1)]⟩)], module := 5, name := "f" }
        c1Env some some 3 =
      some (.error (.runtime .valueNotFunc)) := by
  refine ⟨c10_get_function_defers_checks.1 [] 5 "f",
    c10_get_function_defers_checks.2.1 LangValue LangValue [] 5 "f"
      c1Env some some 3 rfl,
    c10_get_function_defers_checks.2.2.1 LangValue LangValue
      [(5, ⟨[]⟩)] 5 "f" c1Env some some 3 ⟨[]⟩ rfl rfl,
    c10_get_function_defers_checks.2.2.2 LangValue LangValue
      [(5, ⟨[("f", .int 1)]⟩)] 5 "f" c1Env some some 3
      ⟨[("f", .int 1)]⟩ (.int 1) rfl rfl rfl⟩

/-! ## Claims about the parser (C1, C5) -/

/-- Claim C5: when the parser meets the infix `=`, the already-parsed left
operand must be a `VariableRef`, `FieldAccess` or `ValueFieldAccess` node;
it is rewritten to the corresponding assignment node (`VariableAsgn`,
`FieldAsgn`, `ValueFieldAssign`) with `eval_type` `Nothing`, and any other
left operand fails with an error (after the right-hand side parses). -/
theorem c5_assignment_rewrite :
    (∀ (n : Nat) (scope : PScope) (tok : Token) (tokens : List Token)
      (m : ModuleUID) (name : String) (t : TypeKind)
      (value : ASTNode) (scope1 : PScope) (rest1 : List Token),
      tok.kind = .operator .assign →
      parseStatement n scope tokens = some (.ok (value, scope1, rest1)) →
      parseInfixOp (n + 1) scope (.mk (.variableRef m name) t) (tok :: tokens) =
        some (.ok (.mk (.variableAsgn name value) .nothing, true, scope1, rest1))) ∧
    (∀ (n : Nat) (scope : PScope) (tok : Token) (tokens : List Token)
      (v : ASTNode) (ct : ClassType) (fieldName : String) (t : TypeKind)
      (value : ASTNode) (scope1 : PScope) (rest1 : List Token),
      tok.kind = .operator .assign →
      parseStatement n scope tokens = some (.ok (value, scope1, rest1)) →
      parseInfixOp (n + 1) scope (.mk (.fieldAccess v ct fieldName) t)
          (tok :: tokens) =
        some (.ok (.mk (.fieldAsgn v ct fieldName value) .nothing, true,
          scope1, rest1))) ∧
    (∀ (n : Nat) (scope : PScope) (tok : Token) (tokens : List Token)
      (v offset : ASTNode) (t : TypeKind)
      (value : ASTNode) (scope1 : PScope) (rest1 : List Token),
      tok.kind = .operator .assign →
      parseStatement n scope tokens = some (.ok (value, scope1, rest1)) →
      parseInfixOp (n + 1) scope (.mk (.valueFieldAccess v offset) t)
          (tok :: tokens) =
        some (.ok (.mk (.valueFieldAssign v offset value) .nothing, true,
          scope1, rest1))) ∧
    (∀ (n : Nat) (scope : PScope) (tok : Token) (tokens : List Token)
      (k : NodeKind) (t : TypeKind)
      (value : ASTNode) (scope1 : PScope) (rest1 : List Token),
      tok.kind = .operator .assign →
      parseStatement n scope tokens = some (.ok (value, scope1, rest1)) →
      k.isAssignable = false →
      parseInfixOp (n + 1) scope (.mk k t) (tok :: tokens) =
        some (.error (.parser (.unexpectedError "Invalid assignment")))) := by
  refine ⟨fun n scope tok tokens m name t value scope1 rest1 htok hp => ?_,
    fun n scope tok tokens v ct fieldName t value scope1 rest1 htok hp => ?_,
    fun n scope tok tokens v offset t value scope1 rest1 htok hp => ?_,
    fun n scope tok tokens k t value scope1 rest1 htok hp hk => ?_⟩
  · obtain ⟨tk, s0, e0⟩ := tok
    cases htok
    simp [parseInfixOp, hp, ASTNode.kind]
  · obtain ⟨tk, s0, e0⟩ := tok
    cases htok
    simp [parseInfixOp, hp, ASTNode.kind]
  · obtain ⟨tk, s0, e0⟩ := tok
    cases htok
    simp [parseInfixOp, hp, ASTNode.kind]
  · obtain ⟨tk, s0, e0⟩ := tok
    cases htok
    cases k <;> simp_all [parseInfixOp, ASTNode.kind, NodeKind.isAssignable]

/-- Witness for C5: a variable reference is rewritten, a literal left
operand fails. -/
theorem c5_assignment_rewrite_witness :
    parseInfixOp 10 c1ParserScope (.mk (.variableRef 0 "y") .int)
      [mkTok (.operator .assign), mkTok (.literal (.int 1))] =
      some (.ok (.mk (.variableAsgn "y" (.mk (.literal (.int 1)) .int))
        .nothing, true, c1ParserScope, [])) ∧
    parseInfixOp 10 c1ParserScope (.mk (.literal (.int 5)) .int)
      [mkTok (.operator .assign), mkTok (.literal (.int 1))] =
      some (.error (.parser (.unexpectedError "Invalid assignment"))) := by
  constructor
  · exact c5_assignment_rewrite.1 9 c1ParserScope (mkTok (.operator .assign))
      [mkTok (.literal (.int 1))] 0 "y" .int
      (.mk (.literal (.int 1)) .int) c1ParserScope [] rfl rfl
  · exact c5_assignment_rewrite.2.2.2 9 c1ParserScope (mkTok (.operator .assign))
      [mkTok (.literal (.int 1))] (.literal (.int 5)) .int
      (.mk (.literal (.int 1)) .int) c1ParserScope [] rfl rfl rfl

/-- Claim C1 (counterexample): the scenario `var x = 2 + 3 * 4` followed by
a call of a function returning `x` is claimed to yield `Int(20)` (the
grouping `(2+3)*4`); the program yields `Int(14)`. -/
theorem c1_not_twenty :
    c1Result = some (.ok (.int 14)) ∧ c1Result ≠ some (.ok (.int 20)) := by
  have h : c1Result = some (.ok (.int 14)) := rfl
  refine ⟨h, ?_⟩
  rw [h]
  intro hc
  injection hc with h1
  injection h1 with h2
  injection h2 with h3
  omega

/-- Claim C1 (amended): all binary operators bind at equal precedence, but
the right operand of an infix operator is parsed by a recursive
`parse_statement` that consumes the following operators, so expressions
group right-to-left: `var x = 2 + 3 * 4` parses as `2 + (3 * 4)` and the
function returning `x` yields `Int(14)`. -/
theorem c1_right_grouping :
    c1Parse = some (.ok (.mk (.variableDecl "x" c1Expr) .int,
      ⟨0, [[("x", .int)]], ⟨0, []⟩, .nothing⟩, [mkTok .newLine])) ∧
    c1Result = some (.ok (.int 14)) :=
  ⟨rfl, rfl⟩

/-! ## Claims about the evaluator (C6, C7) -/

/-- Claim C7: invoking a value that is neither a `Function` nor an
`ExtFunction` yields `ValueNotFunc`; invoking a `Function` with a wrong
argument count yields `FuncInvalidParamCount(expected, actual)` at any fuel,
so before anything of the body runs; with matching counts the body runs in a
fresh child scope with the parameters bound to the argument values, a
`Return` stopping with its value; and arguments are evaluated strictly
left-to-right after the callee. -/
theorem c7_invoke_function_dispatch :
    (∀ (n : Nat) (env : EvalEnv) (s : EvalScope) (v : LangValue)
      (args : List LangValue),
      v.isCallable = false →
      invokeFunction n env s v args = some (.err (.runtime .valueNotFunc), s)) ∧
    (∀ (n : Nat) (env : EvalEnv) (s : EvalScope) (f : FunctionVal)
      (args : List LangValue),
      f.parameters.length ≠ args.length →
      invokeFunction n env s (.function f) args =
        some (.err (.runtime
          (.funcInvalidParamCount f.parameters.length args.length)), s)) ∧
    (∀ (k : Nat) (env : EvalEnv) (s : EvalScope) (f : FunctionVal)
      (args : List LangValue),
      f.parameters.length = args.length →
      invokeFunction (k + 1) env s (.function f) args =
        (match evalBodySeq k env (declareParams f.parameters args s.pushFrame)
            f.body with
        | none => none
        | some (.finished s2) => some (.ok .nothing, s2.popFrame)
        | some (.retStop v .return_ s2) => some (.ok v, s2.popFrame)
        | some (.retStop v rk s2) => some (.ret v rk, s2.popFrame)
        | some (.errStop e s2) => some (.err e, s2.popFrame))) ∧
    (∀ (n : Nat) (env : EvalEnv) (s : EvalScope) (p : ASTNode)
      (ps : List ASTNode) (v : LangValue) (s1 : EvalScope),
      evalAst n env s p = some (.ok v, s1) →
      evalList (n + 1) env s (p :: ps) =
        (match evalList n env s1 ps with
        | none => none
        | some (.collected vs, s2) => some (.collected (v :: vs), s2)
        | some (.stopped r, s2) => some (.stopped r, s2))) ∧
    (∀ (n : Nat) (env : EvalEnv) (s : EvalScope) (callee : ASTNode)
      (params : List ASTNode) (t : TypeKind) (fv : LangValue) (s1 : EvalScope),
      evalAst n env s callee = some (.ok fv, s1) →
      evalAst (n + 1) env s (.mk (.functionInvok callee params) t) =
        (match evalList n env s1 params with
        | none => none
        | some (.collected vals, s2) => invokeFunction n env s2 fv vals
        | some (.stopped r, s2) => some (r, s2))) := by
  refine ⟨fun n env s v args h => ?_,
    fun n env s f args h => ?_,
    fun k env s f args h => ?_,
    fun n env s p ps v s1 h => ?_,
    fun n env s callee params t fv s1 h => ?_⟩
  · cases v <;> simp_all [invokeFunction, LangValue.isCallable]
  · rw [invokeFunction.eq_def]
    simp [h]
  · rw [invokeFunction.eq_def]
    simp [h]
  · simp [evalList, h]
  · simp [evalAst, h]

/-- Witness for C7: the dispatch clauses at concrete values. -/
theorem c7_invoke_function_dispatch_witness :
    invokeFunction 3 c1Env ⟨[[]]⟩ (.int 0) [] =
      some (.err (.runtime .valueNotFunc), ⟨[[]]⟩) ∧
    invokeFunction 0 c1Env ⟨[[]]⟩ (.function (.mk [] ["a"])) [] =
      some (.err (.runtime (.funcInvalidParamCount 1 0)), ⟨[[]]⟩) ∧
    invokeFunction 2 c1Env ⟨[[]]⟩ (.function (.mk [] [])) [] =
      some (.ok .nothing, ⟨[[]]⟩) ∧
    evalList 2 c1Env ⟨[[]]⟩ [.mk (.literal (.int 2)) .int] =
      some (.collected [.int 2], ⟨[[]]⟩) ∧
    evalAst 2 c1Env ⟨[[]]⟩
        (.mk (.functionInvok (.mk (.literal (.int 1)) .int) []) .nothing) =
      some (.err (.runtime .valueNotFunc), ⟨[[]]⟩) := by
  refine ⟨?_, ?_, ?_, ?_, ?_⟩
  · exact c7_invoke_function_dispatch.1 3 c1Env ⟨[[]]⟩ (.int 0) [] rfl
  · exact c7_invoke_function_dispatch.2.1 0 c1Env ⟨[[]]⟩ (.mk [] ["a"]) []
      (by decide)
  · exact (c7_invoke_function_dispatch.2.2.1 1 c1Env ⟨[[]]⟩ (.mk [] []) []
      rfl).trans (by rfl)
  · exact (c7_invoke_function_dispatch.2.2.2.1 1 c1Env ⟨[[]]⟩
      (.mk (.literal (.int 2)) .int) [] (.int 2) ⟨[[]]⟩ rfl).trans (by rfl)
  · exact (c7_invoke_function_dispatch.2.2.2.2 1 c1Env ⟨[[]]⟩
      (.mk (.literal (.int 1)) .int) [] .nothing (.int 1) ⟨[[]]⟩ rfl).trans
      (by rfl)

/-- Claim C6: with both bounds evaluating to `Int` values, the for statement
runs `forLoop`, which iterates the body once per integer in `[min, max)`,
each iteration in a fresh child scope binding the iteration name to the
integer; zero iterations when `min ≥ max`; a `Break` return unwinds the loop
with its value; and a bound that is not an `Int` yields the
`ValueNotNumber` runtime error. -/
theorem c6_for_statement :
    (∀ (n : Nat) (env : EvalEnv) (s : EvalScope) (l r : ASTNode)
      (body : List ASTNode) (iter : String) (t : TypeKind)
      (lv rv : LangValue) (s1 s2 : EvalScope),
      evalAst n env s l = some (.ok lv, s1) →
      evalAst n env s1 r = some (.ok rv, s2) →
      lv.asI32 = none →
      evalAst (n + 1) env s (.mk (.forStatement l r body iter) t) =
        some (.err (.runtime .valueNotNumber), s2)) ∧
    (∀ (n : Nat) (env : EvalEnv) (s : EvalScope) (l r : ASTNode)
      (body : List ASTNode) (iter : String) (t : TypeKind)
      (lv rv : LangValue) (s1 s2 : EvalScope) (mn : Int),
      evalAst n env s l = some (.ok lv, s1) →
      evalAst n env s1 r = some (.ok rv, s2) →
      lv.asI32 = some mn →
      rv.asI32 = none →
      evalAst (n + 1) env s (.mk (.forStatement l r body iter) t) =
        some (.err (.runtime .valueNotNumber), s2)) ∧
    (∀ (n : Nat) (env : EvalEnv) (s : EvalScope) (l r : ASTNode)
      (body : List ASTNode) (iter : String) (t : TypeKind)
      (lv rv : LangValue) (s1 s2 : EvalScope) (mn mx : Int),
      evalAst n env s l = some (.ok lv, s1) →
      evalAst n env s1 r = some (.ok rv, s2) →
      lv.asI32 = some mn →
      rv.asI32 = some mx →
      evalAst (n + 1) env s (.mk (.forStatement l r body iter) t) =
        forLoop n env s2 mn mx body iter) ∧
    (∀ (n : Nat) (env : EvalEnv) (s : EvalScope) (mn mx : Int)
      (body : List ASTNode) (iter : String),
      mx ≤ mn →
      forLoop n env s mn mx body iter = some (.ok .nothing, s)) ∧
    (∀ (k : Nat) (env : EvalEnv) (s : EvalScope) (mn mx : Int)
      (body : List ASTNode) (iter : String),
      mn < mx →
      forLoop (k + 1) env s mn mx body iter =
        (match evalBodySeq k env ((s.pushFrame).declareVar iter (.int mn))
            body with
        | none => none
        | some (.finished s2) => forLoop k env s2.popFrame (mn + 1) mx body iter
        | some (.retStop v .break_ s2) => some (.ok v, s2.popFrame)
        | some (.retStop v rk s2) => some (.ret v rk, s2.popFrame)
        | some (.errStop e s2) => some (.err e, s2.popFrame))) := by
  refine ⟨fun n env s l r body iter t lv rv s1 s2 h1 h2 h3 => ?_,
    fun n env s l r body iter t lv rv s1 s2 mn h1 h2 h3 h4 => ?_,
    fun n env s l r body iter t lv rv s1 s2 mn mx h1 h2 h3 h4 => ?_,
    fun n env s mn mx body iter h => ?_,
    fun k env s mn mx body iter h => ?_⟩
  · simp [evalAst, h1, h2, h3]
  · simp [evalAst, h1, h2, h3, h4]
  · simp [evalAst, h1, h2, h3, h4]
  · rw [forLoop.eq_def]
    dsimp only
    rw [if_neg (by omega)]
  · rw [forLoop.eq_def]
    dsimp only
    rw [if_pos h]

/-- Witness for C6: zero iterations end-to-end for `for i in 5..3`, a
`Break` unwinding with its value, and a non-`Int` bound erroring. -/
theorem c6_for_statement_witness :
    evalAst 9 c1Env ⟨[[]]⟩
        (.mk (.forStatement (.mk (.literal (.int 5)) .int)
          (.mk (.literal (.int 3)) .int) [] "i") .nothing) =
      some (.ok .nothing, ⟨[[]]⟩) ∧
    forLoop 9 c1Env ⟨[[]]⟩ 0 2
        [.mk (.returnStatement (some (.mk (.literal (.int 42)) .int)) .break_)
          .nothing] "i" =
      some (.ok (.int 42), ⟨[[]]⟩) ∧
    evalAst 9 c1Env ⟨[[]]⟩
        (.mk (.forStatement (.mk (.literal (.string "q")) .string)
          (.mk (.literal (.int 3)) .int) [] "i") .nothing) =
      some (.err (.runtime .valueNotNumber), ⟨[[]]⟩) := by
  refine ⟨?_, ?_, ?_⟩
  · have h := c6_for_statement.2.2.1 8 c1Env ⟨[[]]⟩
      (.mk (.literal (.int 5)) .int) (.mk (.literal (.int 3)) .int)
      [] "i" .nothing (.int 5) (.int 3) ⟨[[]]⟩ ⟨[[]]⟩ 5 3 rfl rfl rfl rfl
    exact h.trans (c6_for_statement.2.2.2.1 8 c1Env ⟨[[]]⟩ 5 3 [] "i"
      (by omega))
  · have h := c6_for_statement.2.2.2.2 8 c1Env ⟨[[]]⟩ 0 2
      [.mk (.returnStatement (some (.mk (.literal (.int 42)) .int)) .break_)
        .nothing] "i" (by omega)
    exact h.trans (by rfl)
  · exact c6_for_statement.1 8 c1Env ⟨[[]]⟩
      (.mk (.literal (.string "q")) .string) (.mk (.literal (.int 3)) .int)
      [] "i" .nothing (.string "q") (.int 3) ⟨[[]]⟩ ⟨[[]]⟩ rfl rfl rfl

/-! ## Claims about the module loader (C2, C4) -/

/-- Inserting a module makes it the cache entry under its UID. -/
theorem cacheLookup_insert_self (c : LoaderCache) (uid : ModuleUID)
    (m : LoaderModule) : cacheLookup (cacheInsert c uid m) uid = some m := by
  simp [cacheInsert, cacheLookup, List.lookup]

/-- A lookup under a different key passes through the filter of a cache
insertion. -/
theorem lookup_filter_ne (u uid : ModuleUID) (h : u ≠ uid) (c : LoaderCache) :
    List.lookup uid (c.filter (fun e => e.1 != u)) = List.lookup uid c := by
  induction c with
  | nil => rfl
  | cons e rest ih =>
    obtain ⟨k, v⟩ := e
    by_cases hk : k = u
    · subst hk
      have h1 : (uid == k) = false := by simpa using fun he => h he.symm
      simp [List.filter_cons, List.lookup, h1, ih]
    · have h1 : (k != u) = true := by simpa using hk
      by_cases huk : uid = k
      · subst huk
        simp [List.filter_cons, h1, List.lookup]
      · have h2 : (uid == k) = false := by simpa using huk
        simp [List.filter_cons, h1, List.lookup, h2, ih]

/-- Inserting under one UID leaves lookups under another unchanged. -/
theorem cacheLookup_insert_ne (c : LoaderCache) (u uid : ModuleUID)
    (m : LoaderModule) (h : u ≠ uid) :
    cacheLookup (cacheInsert c u m) uid = cacheLookup c uid := by
  have hne : (uid == u) = false := by simpa using fun he => h he.symm
  simp only [cacheInsert, cacheLookup, List.lookup, hne]
  exact lookup_filter_ne u uid h c

/-- After inserting a module, the cache holds exactly one entry under its
UID. -/
theorem cacheCountKey_insert_self (c : LoaderCache) (uid : ModuleUID)
    (m : LoaderModule) : cacheCountKey (cacheInsert c uid m) uid = 1 := by
  have hnil : ∀ l : LoaderCache,
      List.filter (fun e => e.1 == uid) (List.filter (fun e => e.1 != uid) l)
        = [] := by
    intro l
    induction l with
    | nil => rfl
    | cons e rest ih =>
      by_cases he : e.1 = uid
      · have h1 : (e.1 != uid) = false := by simpa using he
        simp [List.filter_cons, h1, ih]
      · have h1 : (e.1 != uid) = true := by simpa using he
        have h2 : (e.1 == uid) = false := by simpa using he
        simp [List.filter_cons, h1, h2, ih]
  simp [cacheCountKey, cacheInsert, List.filter_cons, hnil]

/-- Inserting under one UID leaves the entry count under another
unchanged. -/
theorem cacheCountKey_insert_ne (c : LoaderCache) (u uid : ModuleUID)
    (m : LoaderModule) (h : u ≠ uid) :
    cacheCountKey (cacheInsert c u m) uid = cacheCountKey c uid := by
  have h0 : (u == uid) = false := by simpa using h
  have hsame : ∀ l : LoaderCache,
      List.filter (fun e => e.1 == uid) (List.filter (fun e => e.1 != u) l)
        = List.filter (fun e => e.1 == uid) l := by
    intro l
    induction l with
    | nil => rfl
    | cons e rest ih =>
      by_cases he : e.1 = u
      · have h1 : (e.1 != u) = false := by simpa using he
        have h2 : (e.1 == uid) = false := by
          simpa using he ▸ h
        simp [List.filter_cons, h1, h2, ih]
      · have h1 : (e.1 != u) = true := by simpa using he
        by_cases h2 : e.1 = uid
        · have h2b : (e.1 == uid) = true := by simpa using h2
          simp [List.filter_cons, h1, h2b, ih]
        · have h2b : (e.1 == uid) = false := by simpa using h2
          simp [List.filter_cons, h1, h2b, ih]
  simp [cacheCountKey, cacheInsert, List.filter_cons, h0, hsame]

/-- The dependency parse loop preserves a cache entry that agrees with what
`parse_module` yields for its UID, and its entry count: re-parsing the same
UID re-inserts the same module. -/
theorem depsLoop_preserves (pl : LoaderPipeline)
    (modules : List LoaderParsableModule) (uid : ModuleUID) (m : LoaderModule)
    (hp : pl.parseModule modules uid = .ok m) :
    ∀ (uids : List ModuleUID) (cache : LoaderCache) (deps d : List LoaderModule)
      (c2 : LoaderCache),
    depsLoop pl modules uids cache deps = .ok (d, c2) →
    cacheLookup cache uid = some m →
    cacheCountKey cache uid = 1 →
    cacheLookup c2 uid = some m ∧ cacheCountKey c2 uid = 1 := by
  intro uids
  induction uids with
  | nil =>
    intro cache deps d c2 hd hl hc
    simp only [depsLoop, Except.ok.injEq, Prod.mk.injEq] at hd
    obtain ⟨-, h2⟩ := hd
    subst h2
    exact ⟨hl, hc⟩
  | cons u rest ih =>
    intro cache deps d c2 hd hl hc
    simp only [depsLoop] at hd
    cases hpm : pl.parseModule modules u with
    | error e => simp [hpm] at hd
    | ok mu =>
      simp only [hpm] at hd
      by_cases hu : u = uid
      · subst hu
        have hmu : mu = m := by
          rw [hp] at hpm
          exact (Except.ok.inj hpm).symm
        subst hmu
        exact ih (cacheInsert cache u mu) (deps ++ [mu]) d c2 hd
          (cacheLookup_insert_self cache u mu)
          (cacheCountKey_insert_self cache u mu)
      · exact ih (cacheInsert cache u mu) (deps ++ [mu]) d c2 hd
          ((cacheLookup_insert_ne cache u uid mu hu).trans hl)
          ((cacheCountKey_insert_ne cache u uid mu hu).trans hc)

/-- Claim C4: loading the same identifier twice with the same importer:
after a successful first load from an empty cache, the second call resolves
the same UID, finds it in the cache and returns immediately the same cached
module with an empty dependency list and an unchanged cache, and the cache
holds exactly one entry for that UID. -/
theorem c4_load_module_cached (pl : LoaderPipeline) (imp : ModuleImporter)
    (fuel : Nat) (id : String) (uid : ModuleUID) (m : LoaderModule)
    (deps : List LoaderModule) (cache1 : LoaderCache)
    (hUid : imp.getUniqueIdentifier id = some uid)
    (hFirst : loadModule pl imp fuel [] id = some (.ok ((m, deps), cache1))) :
    (∀ fuel2 : Nat,
      loadModule pl imp fuel2 cache1 id = some (.ok ((m, []), cache1))) ∧
    cacheLookup cache1 uid = some m ∧
    cacheCountKey cache1 uid = 1 := by
  simp only [loadModule, hUid, cacheLookup, List.lookup] at hFirst
  cases hsrc : imp.loadModule id with
  | none => simp [hsrc] at hFirst
  | some source =>
    simp only [hsrc, loadModuleWithSource] at hFirst
    cases htok : pl.tokenize source with
    | error e => simp [htok] at hFirst
    | ok tokens =>
      simp only [htok] at hFirst
      cases hpre : pl.prepareModule tokens id uid with
      | error e => simp [hpre] at hFirst
      | ok pm =>
        simp only [hpre] at hFirst
        cases hcp : createParser pl imp fuel [] pm with
        | none => simp [hcp] at hFirst
        | some res =>
          simp only [hcp] at hFirst
          cases res with
          | error e => simp at hFirst
          | ok modules =>
            cases hpm : pl.parseModule modules uid with
            | error e => simp [hpm] at hFirst
            | ok m0 =>
              simp only [hpm] at hFirst
              cases hdl : depsLoop pl modules m0.imports
                  (cacheInsert [] uid m0) [] with
              | error e => simp [hdl] at hFirst
              | ok pr =>
                obtain ⟨deps0, cache2⟩ := pr
                simp only [hdl, Option.some.injEq, Except.ok.injEq,
                  Prod.mk.injEq] at hFirst
                obtain ⟨⟨hm0, hdeps0⟩, hcache2⟩ := hFirst
                subst hm0
                subst hcache2
                have hfacts := depsLoop_preserves pl modules uid m0 hpm
                  m0.imports (cacheInsert [] uid m0) [] deps0 cache2 hdl
                  (cacheLookup_insert_self [] uid m0)
                  (cacheCountKey_insert_self [] uid m0)
                refine ⟨fun fuel2 => ?_, hfacts.1, hfacts.2⟩
                simp [loadModule, hUid, hfacts.1]

/-- Witness for C4: a concrete one-module pipeline loaded twice. -/
theorem c4_load_module_cached_witness :
    loadModule c4Pl c4Imp 0 [(7, c4Module)] "m" =
      some (.ok ((c4Module, []), [(7, c4Module)])) ∧
    cacheLookup [(7, c4Module)] 7 = some c4Module ∧
    cacheCountKey [(7, c4Module)] 7 = 1 := by
  have h := c4_load_module_cached c4Pl c4Imp 2 "m" 7 c4Module []
    [(7, c4Module)] rfl rfl
  exact ⟨h.1 0, h.2.1, h.2.2⟩

/-- The cyclic import scenario: with an empty cache, the recursive import
pre-parse of module `a` (whose import chain is `a → b → a → …`) exhausts
every fuel: nothing marks a module as in flight, so the walk re-enters the
same modules for ever and no result — in particular no `CircularImport`
error — is ever produced. -/
theorem c2_load_imports_cyclic_none : ∀ n : Nat,
    (∀ vec, loadImportsList c2Pl c2Imp n [] vec ["b"] = none) ∧
    (∀ vec, loadImportsList c2Pl c2Imp n [] vec ["a"] = none) := by
  intro n
  induction n using Nat.strong_induction_on with
  | _ n ih =>
    match n with
    | 0 => exact ⟨fun _ => rfl, fun _ => rfl⟩
    | Nat.succ k =>
      have ha : ∀ vec, loadImports c2Pl c2Imp k [] vec ⟨["a"]⟩ = none := by
        intro vec
        match k with
        | 0 => rfl
        | Nat.succ j => exact (ih j (by omega)).2 vec
      have hb : ∀ vec, loadImports c2Pl c2Imp k [] vec ⟨["b"]⟩ = none := by
        intro vec
        match k with
        | 0 => rfl
        | Nat.succ j => exact (ih j (by omega)).1 vec
      constructor
      · intro vec
        show (match loadImports c2Pl c2Imp k [] vec ⟨["a"]⟩ with
          | none => none
          | some (Except.error e) => some (Except.error e)
          | some (Except.ok vec2) =>
            loadImportsList c2Pl c2Imp k [] (vec2 ++ [⟨["a"]⟩]) []) = none
        rw [ha vec]
      · intro vec
        show (match loadImports c2Pl c2Imp k [] vec ⟨["b"]⟩ with
          | none => none
          | some (Except.error e) => some (Except.error e)
          | some (Except.ok vec2) =>
            loadImportsList c2Pl c2Imp k [] (vec2 ++ [⟨["b"]⟩]) []) = none
        rw [hb vec]

/-- Claim C2 (the code's actual behaviour at the claim's input): loading
module `a` of the cyclic import graph `a → b → a` runs out of any finite
fuel — the load diverges (the Rust original recurses without bound) and
never returns, so it never reports `CircularImport`. -/
theorem c2_cyclic_import_diverges (fuel : Nat) :
    loadModule c2Pl c2Imp fuel [] "a" = none := by
  have hcp : createParser c2Pl c2Imp fuel [] ⟨["b"]⟩ = none := by
    match fuel with
    | 0 => rfl
    | Nat.succ k => exact (c2_load_imports_cyclic_none k).1 [⟨["b"]⟩]
  show (match createParser c2Pl c2Imp fuel [] ⟨["b"]⟩ with
    | none => none
    | some (Except.error e) => some (Except.error e)
    | some (Except.ok modules) =>
      match c2Pl.parseModule modules 0 with
      | .error e => some (.error e)
      | .ok m =>
        match depsLoop c2Pl modules m.imports (cacheInsert [] 0 m) [] with
        | .error e => some (.error e)
        | .ok (deps, cache2) => some (.ok ((m, deps), cache2))) = none
  rw [hcp]

end RainLang
